import Mathlib

/-!
Verification of the outfit compatibility and recommendation engine.

This file gives a shallow embedding, in Lean 4, of the core scoring and
compatibility logic of the repository (the modules `color_harmony.py`,
`compatability.py`, `matching.py` and the static tables of `constants.py`),
together with theorems settling the behavioural claims about that code.

Modelling conventions:
* Python `int` values become `Int` (or `Nat` where the source value is
  manifestly non-negative), Python `float` values become `ℚ` (all float
  literals and arithmetic appearing in the source are exact on the inputs
  the functions are specified for), and `math.sqrt` becomes `Real.sqrt`
  (the one genuinely irrational operation; all *decisions* made on such
  values are implemented by exact rational/integer tests, proved equivalent).
* Python tuples become products, `None`/exceptions become `Option`,
  dictionaries become association lists with `lookup`.
* Python's `str` formatting of floats is modelled by the opaque-but-pure
  textual rendering `fmtQ` below; no claim depends on the exact digits.
-/

namespace SIY

/- Batteries marks rational arithmetic `@[irreducible]`; the concrete
witnesses below are evaluated by `decide`/`rfl`, which needs these
definitions to unfold. -/
attribute [local semireducible] Rat.add Rat.sub Rat.mul Rat.inv Rat.ofScientific

/-- Textual rendering of a numeric value, standing in for Python's
`str(float)` in warning messages.  Both the embedded code and the
specification-side definitions use it, so message identity is preserved. -/
def fmtQ (q : ℚ) : String := toString q

/-- `models/schemas.py`: `HSL` (integer hue/saturation/lightness). -/
structure HSL where
  h : Int
  s : Int
  l : Int
deriving DecidableEq, Repr

/-- `models/schemas.py`: `Color`. -/
structure Color where
  hex : String
  hsl : HSL
  name : String
  is_neutral : Bool
deriving DecidableEq, Repr

/-- `models/schemas.py`: `Category` (two-level taxonomy). -/
structure Category where
  l1 : String
  l2 : String
deriving DecidableEq, Repr

/-- `models/schemas.py`: `ClothingItemBase`. -/
structure ClothingItemBase where
  color : Color
  category : Category
  formality : ℚ
  aesthetics : List String
deriving DecidableEq, Repr

/-- `models/schemas.py`: `FormalityRange`. -/
structure FormalityRange where
  min : ℚ
  max : ℚ
deriving DecidableEq, Repr

/-- `models/schemas.py`: `RecommendedColor`. -/
structure RecommendedColor where
  hex : String
  name : String
  harmony_type : String
deriving DecidableEq, Repr

/-- `models/schemas.py`: `CategoryRecommendation`. -/
structure CategoryRecommendation where
  category_l1 : String
  colors : List RecommendedColor
  formality_range : FormalityRange
  aesthetics : List String
  suggested_l2 : List String
  «example» : String
deriving DecidableEq, Repr

/-- `models/schemas.py`: `ValidateItemResponse`. -/
structure ValidateItemResponse where
  color_status : String
  formality_status : String
  aesthetic_status : String
  pairing_status : String
  warnings : List String
deriving DecidableEq, Repr

/-- `models/schemas.py`: `ClothingItemResponse` (the closet item record used
by the matching service; only the fields the matching code reads are kept,
plus `id` so distinct closet entries stay distinguishable). -/
structure ClothingItemResponse where
  id : String
  color : Color
  category : Category
  formality : ℚ
  aesthetics : List String
deriving DecidableEq, Repr

/-! ### Static tables (`utils/constants.py`) -/

/-- `constants.py`: `CATEGORY_TAXONOMY`, as an association list. -/
def CATEGORY_TAXONOMY : List (String × List String) :=
  [("Tops", ["T-Shirts", "Polos", "Casual Shirts", "Dress Shirts", "Sweaters", "Hoodies", "Blazers"]),
   ("Bottoms", ["Jeans", "Chinos", "Dress Pants", "Shorts", "Joggers", "Skirts"]),
   ("Shoes", ["Sneakers", "Loafers", "Oxfords", "Boots", "Sandals", "Heels"]),
   ("Accessories", ["Watches", "Belts", "Bags", "Hats", "Scarves", "Jewelry", "Sunglasses"]),
   ("Outerwear", ["Jackets", "Coats", "Vests"]),
   ("Full Body", ["Dresses", "Suits"])]

/-- `constants.py`: `NEUTRAL_COLORS`. -/
def NEUTRAL_COLORS : List String :=
  ["black", "white", "gray", "grey", "navy", "beige", "cream", "tan", "khaki"]

/-- `constants.py`: `NEUTRAL_COLOR_DATA` (hex and HSL per neutral name). -/
def NEUTRAL_COLOR_DATA : List (String × String × HSL) :=
  [("black", "#000000", ⟨0, 0, 0⟩),
   ("white", "#FFFFFF", ⟨0, 0, 100⟩),
   ("gray", "#808080", ⟨0, 0, 50⟩),
   ("grey", "#808080", ⟨0, 0, 50⟩),
   ("navy", "#0B1C2D", ⟨210, 61, 11⟩),
   ("beige", "#F5F5DC", ⟨60, 56, 91⟩),
   ("cream", "#FFFDD0", ⟨57, 100, 91⟩),
   ("tan", "#D2B48C", ⟨34, 44, 69⟩),
   ("khaki", "#C3B091", ⟨37, 29, 67⟩)]

/-- `constants.py`: `SHOE_BOTTOM_PAIRINGS`, as an association list; a key
absent from the table models a dictionary miss. -/
def SHOE_BOTTOM_PAIRINGS : List (String × List String) :=
  [("Oxfords", ["Dress Pants", "Chinos", "Suits"]),
   ("Loafers", ["Dress Pants", "Chinos", "Suits", "Jeans"]),
   ("Sneakers", ["Jeans", "Joggers", "Shorts", "Chinos"]),
   ("Boots", ["Jeans", "Chinos", "Dress Pants"]),
   ("Sandals", ["Shorts", "Jeans", "Skirts", "Dresses"]),
   ("Heels", ["Dresses", "Dress Pants", "Skirts", "Suits"])]

/-- `constants.py`: `REQUIRED_CATEGORIES_STANDARD`. -/
def REQUIRED_CATEGORIES_STANDARD : List String := ["Tops", "Bottoms", "Shoes"]

/-- `constants.py`: `REQUIRED_CATEGORIES_FULLBODY`. -/
def REQUIRED_CATEGORIES_FULLBODY : List String := ["Full Body", "Shoes"]

/-- `constants.py`: `MAX_OUTFIT_ITEMS`. -/
def MAX_OUTFIT_ITEMS : Nat := 6

/-! ### Color harmony module (`services/color_harmony.py`) -/

/-- Python `str.lower()` for the ASCII strings the engine handles (Lean's
`String.toLower` is not kernel-reducible, so the map is spelled out). -/
def lowerChar (c : Char) : Char :=
  if 65 ≤ c.toNat ∧ c.toNat ≤ 90 then Char.ofNat (c.toNat + 32) else c

/-- Python `str.lower()` on a whole string. -/
def pyLower (s : String) : String := String.mk (s.data.map lowerChar)

/-- `is_neutral_color`: membership of the lower-cased name in `NEUTRAL_COLORS`. -/
def is_neutral_color (color_name : String) : Bool :=
  NEUTRAL_COLORS.contains (pyLower color_name)

/-- `get_hue_distance`: shortest distance between two hues on the wheel. -/
def get_hue_distance (h1 h2 : Int) : Int :=
  let distance := |h1 - h2|
  min distance (360 - distance)

/-- `get_hue_distance_HSL`: wrapper taking `HSL` values. -/
def get_hue_distance_HSL (hsl1 hsl2 : HSL) : Int :=
  get_hue_distance hsl1.h hsl2.h

/-- `are_colors_analogous` (default threshold 30). -/
def are_colors_analogous (hsl1 hsl2 : HSL) (threshold : Int := 30) : Bool :=
  get_hue_distance_HSL hsl1 hsl2 ≤ threshold

/-- `are_colors_complementary` (default threshold 15). -/
def are_colors_complementary (hsl1 hsl2 : HSL) (threshold : Int := 15) : Bool :=
  let hue_distance := get_hue_distance_HSL hsl1 hsl2
  180 - threshold ≤ hue_distance ∧ hue_distance ≤ 180 + threshold

/-- `are_colors_triadic` (default threshold 15). -/
def are_colors_triadic (hsl1 hsl2 : HSL) (threshold : Int := 15) : Bool :=
  let hue_distance := get_hue_distance_HSL hsl1 hsl2
  120 - threshold ≤ hue_distance ∧ hue_distance ≤ 120 + threshold

/-- `check_color_compatibility`: priority chain
neutral, analogous, complementary, triadic, none. -/
def check_color_compatibility (color1 color2 : Color) : Bool × String :=
  if is_neutral_color color1.name ∨ is_neutral_color color2.name then
    (true, "neutral")
  else if are_colors_analogous color1.hsl color2.hsl then
    (true, "analogous")
  else if are_colors_complementary color1.hsl color2.hsl then
    (true, "complementary")
  else if are_colors_triadic color1.hsl color2.hsl then
    (true, "triadic")
  else
    (false, "none")

/-- A kernel-reducible strict comparison on `ℚ` (the `<` instance does not
evaluate in the kernel; `ltQ_iff` bridges). -/
def ltQ (a b : ℚ) : Bool := !(decide (b ≤ a))

/-- Python `abs` on a float, as an executable definition on `ℚ` (the
lattice `|·|` on `ℚ` is not kernel-reducible; `absQ_eq_abs` bridges). -/
def absQ (q : ℚ) : ℚ := if ltQ q 0 then -q else q

/-- Floor of a rational, in the kernel-reducible form `num / den`
(`⌊·⌋` on `ℚ` does not evaluate; `floorQ_eq` bridges). -/
def floorQ (q : ℚ) : Int := q.num / q.den

/-- Python `int(x)` on a float: truncation toward zero, on `ℚ`. -/
def pyTrunc (q : ℚ) : Int :=
  if ltQ q 0 then -floorQ (-q) else floorQ q

/-- Python `x % m` on floats with positive modulus (floor semantics), on `ℚ`. -/
def pyMod (q m : ℚ) : ℚ := q - m * (floorQ (q / m) : ℚ)

/-- `hsl_to_rgb`: HSL to RGB conversion.  Float arithmetic is carried out in
`ℚ`; list indexing `rgb_primes[int(hp) % 6]` becomes a six-way match (the
fallback row is unreachable because `emod 6 < 6`). -/
def hsl_to_rgb (hsl : HSL) : Int × Int × Int :=
  let h : ℚ := ((hsl.h % 360 : Int) : ℚ)
  let s : ℚ := (hsl.s : ℚ) / 100
  let l : ℚ := (hsl.l : ℚ) / 100
  let c : ℚ := s * (1 - absQ (2 * l - 1))
  let hp : ℚ := h / 60
  let x : ℚ := c * (1 - absQ (pyMod hp 2 - 1))
  let m : ℚ := l - (1/2) * c
  let rp : ℚ × ℚ × ℚ :=
    match ((pyTrunc hp) % 6).toNat with
    | 0 => (c, x, 0)
    | 1 => (x, c, 0)
    | 2 => (0, c, x)
    | 3 => (0, x, c)
    | 4 => (x, 0, c)
    | 5 => (c, 0, x)
    | _ => (0, 0, 0)
  (pyTrunc ((rp.1 + m) * 255), pyTrunc ((rp.2.1 + m) * 255), pyTrunc ((rp.2.2 + m) * 255))

/-- One upper-case hexadecimal digit. -/
def hexDigitU (n : Nat) : Char :=
  if n < 10 then Char.ofNat (48 + n) else Char.ofNat (55 + n)

/-- Python `f"{n:02X}"` for a channel value in `[0, 255]`. -/
def toHex2 (n : Int) : String :=
  let v := n.toNat
  String.mk [hexDigitU (v / 16 % 16), hexDigitU (v % 16)]

/-- `hsl_to_hex`: HSL to `#RRGGBB` (upper case, zero padded). -/
def hsl_to_hex (hsl : HSL) : String :=
  let rgb := hsl_to_rgb hsl
  "#" ++ toHex2 rgb.1 ++ toHex2 rgb.2.1 ++ toHex2 rgb.2.2

/-- `get_color_name_from_hsl`: estimate a fashion color name from HSL. -/
def get_color_name_from_hsl (hsl : HSL) : String :=
  let h := hsl.h
  let s := hsl.s
  let l := hsl.l
  if s < 10 then
    if l < 15 then "black"
    else if l > 90 then "white"
    else "gray"
  else if l < 5 then "black"
  else if l > 95 then "white"
  else if (0 ≤ h ∧ h < 15) ∨ (345 ≤ h ∧ h ≤ 360) then "red"
  else if 15 ≤ h ∧ h < 45 then "orange"
  else if 45 ≤ h ∧ h < 65 then "yellow"
  else if 65 ≤ h ∧ h < 150 then "green"
  else if 150 ≤ h ∧ h < 200 then (if l ≤ 50 then "teal" else "cyan")
  else if 200 ≤ h ∧ h < 230 then (if l ≤ 20 then "navy" else "blue")
  else if 230 ≤ h ∧ h < 290 then (if l ≤ 50 then "violet" else "purple")
  else if 290 ≤ h ∧ h < 345 then (if l ≤ 65 then "magenta" else "pink")
  else "clear"

/-- `hsl_to_color`: assemble a `Color` from an `HSL`. -/
def hsl_to_color (hsl : HSL) : Color :=
  let hex := hsl_to_hex hsl
  let name := get_color_name_from_hsl hsl
  ⟨hex, hsl, name, is_neutral_color name⟩

/-- `get_analogous_hsl`: hues ±30°, wrapped mod 360. -/
def get_analogous_hsl (base_hsl : HSL) : HSL × HSL :=
  (⟨(base_hsl.h + 30) % 360, base_hsl.s, base_hsl.l⟩,
   ⟨(base_hsl.h - 30) % 360, base_hsl.s, base_hsl.l⟩)

/-- `get_complementary_hsl`: hue +180°, wrapped mod 360. -/
def get_complementary_hsl (base_hsl : HSL) : HSL :=
  ⟨(base_hsl.h + 180) % 360, base_hsl.s, base_hsl.l⟩

/-- The neutral-palette loop inside `generate_recommended_colors`: walk
`NEUTRAL_COLORS`, look each name up in `NEUTRAL_COLOR_DATA` (a miss raises
`ValueError`, modelled by `none`), deduplicate by lower-cased hex. -/
def neutralPalette : List String → List String → Option (List RecommendedColor)
  | [], _ => some []
  | name :: rest, seen =>
    match (NEUTRAL_COLOR_DATA.lookup name) with
    | none => none
    | some data =>
      let hx := pyLower data.1
      if seen.contains hx then neutralPalette rest seen
      else
        match neutralPalette rest (hx :: seen) with
        | none => none
        | some tail => some (⟨hx, name, "neutral"⟩ :: tail)

/-- `generate_recommended_colors`: fixed neutral palette (when requested)
plus, for a non-neutral base, the two analogous colors and the complement.
`none` models the `ValueError` raised on a missing neutral data entry. -/
def generate_recommended_colors (base_color : Color) (include_neutrals : Bool := true) :
    Option (List RecommendedColor) :=
  let hsl_to_rec : HSL → RecommendedColor := fun rec_hsl =>
    let hex := hsl_to_hex rec_hsl
    let recColor := hsl_to_color rec_hsl
    ⟨hex, recColor.name, (check_color_compatibility base_color recColor).2⟩
  let neutrals : Option (List RecommendedColor) :=
    if include_neutrals then neutralPalette NEUTRAL_COLORS [] else some []
  match neutrals with
  | none => none
  | some recommended_colors =>
    if is_neutral_color base_color.name then some recommended_colors
    else
      let anal := get_analogous_hsl base_color.hsl
      let comp := get_complementary_hsl base_color.hsl
      some (recommended_colors ++ [hsl_to_rec anal.1, hsl_to_rec anal.2, hsl_to_rec comp])

/-! ### Compatibility rules module (`services/compatability.py`) -/

/-- `check_formality_compatibility`. -/
def check_formality_compatibility (formality1 formality2 : ℚ) : String × Option String :=
  let distance := absQ (formality1 - formality2)
  if distance ≤ 1 then ("ok", none)
  else if distance ≤ 2 then
    ("warning", some ("Formality gap is 2 levels (" ++ fmtQ formality1 ++ " vs " ++
      fmtQ formality2 ++ ")"))
  else
    ("mismatch", some ("Formality mismatch: " ++ fmtQ distance ++ " levels apart (" ++
      fmtQ formality1 ++ " vs " ++ fmtQ formality2 ++ ")"))

/-- `check_aesthetic_compatibility`. -/
def check_aesthetic_compatibility (aesthetics1 aesthetics2 : List String) :
    String × Option String :=
  if aesthetics1.isEmpty ∨ aesthetics2.isEmpty then ("cohesive", none)
  else if aesthetics1.any (fun t => aesthetics2.contains t) then ("cohesive", none)
  else ("warning", some "No shared aesthetic tags")

/-- `check_category_pairing`: only Shoes × (Bottoms or Full Body) pairs are
constrained, via `SHOE_BOTTOM_PAIRINGS` with empty default. -/
def check_category_pairing (item1 item2 : ClothingItemBase) : String × Option String :=
  let shoeBottom : Option (ClothingItemBase × ClothingItemBase) :=
    if item1.category.l1 = "Shoes" then
      if item2.category.l1 = "Bottoms" ∨ item2.category.l1 = "Full Body" then
        some (item1, item2)
      else none
    else if item2.category.l1 = "Shoes" then
      if item1.category.l1 = "Bottoms" ∨ item1.category.l1 = "Full Body" then
        some (item2, item1)
      else none
    else none
  match shoeBottom with
  | none => ("ok", none)
  | some (shoe_item, bottom_item) =>
    let shoe_l2 := shoe_item.category.l2
    let allowed_bottoms := (SHOE_BOTTOM_PAIRINGS.lookup shoe_l2).getD []
    let bottom_l2 := bottom_item.category.l2
    if bottom_item.category.l1 = "Full Body" then
      if allowed_bottoms.contains "Dresses" ∨ allowed_bottoms.contains "Suits" then
        ("ok", none)
      else
        ("warning", some (shoe_l2 ++ " typically don\x27t pair with " ++ bottom_l2))
    else if allowed_bottoms.contains bottom_l2 then ("ok", none)
    else ("warning", some (shoe_l2 ++ " typically don\x27t pair with " ++ bottom_l2))

/-- The color-check loop of `validate_item`, carrying `(color_ok, color_warnings)`. -/
def colorLoop (new_item : ClothingItemBase) :
    List ClothingItemBase → Bool × List String → Bool × List String
  | [], st => st
  | item :: rest, st =>
    let c := check_color_compatibility new_item.color item.color
    if c.1 then colorLoop new_item rest st
    else colorLoop new_item rest
      (false, st.2 ++ ["Color may clash with " ++ item.category.l2 ++ " (" ++ c.2 ++ ")"])

/-- The formality loop of `validate_item` (the inline base check uses the same
code, so the base item is passed as the head of the list), carrying
`(formality_status, formality_warnings)`. -/
def formalityLoop (new_item : ClothingItemBase) :
    List ClothingItemBase → String × List String → String × List String
  | [], st => st
  | item :: rest, st =>
    let r := check_formality_compatibility new_item.formality item.formality
    if r.1 = "mismatch" then
      formalityLoop new_item rest ("mismatch", st.2 ++ r.2.toList)
    else if r.1 = "warning" ∧ st.1 = "ok" then
      formalityLoop new_item rest ("warning", st.2 ++ r.2.toList)
    else formalityLoop new_item rest st

/-- The category-pairing loop of `validate_item` (base item passed as head),
carrying `(pairing_status, pairing_warnings)`. -/
def pairingLoop (new_item : ClothingItemBase) :
    List ClothingItemBase → String × List String → String × List String
  | [], st => st
  | item :: rest, st =>
    let r := check_category_pairing new_item item
    if r.1 = "warning" then
      pairingLoop new_item rest ("warning", st.2 ++ r.2.toList)
    else pairingLoop new_item rest st

/-- `validate_item`: check a candidate against the base item and the current
outfit across the four dimensions, as in the source (color vs base with its
special message, then the outfit loop; formality and pairing vs base then the
outfit via the same code; aesthetics vs base only). -/
def validate_item (new_item base_item : ClothingItemBase)
    (current_outfit : List ClothingItemBase) : ValidateItemResponse :=
  let base_c := check_color_compatibility new_item.color base_item.color
  let color0 : Bool × List String :=
    if base_c.1 then (true, [])
    else (false, ["Color may clash with base item (" ++ base_c.2 ++ ")"])
  let color_res := colorLoop new_item current_outfit color0
  let color_status := if color_res.1 then "ok" else "warning"
  let formality_res := formalityLoop new_item (base_item :: current_outfit) ("ok", [])
  let aesthetic_res := check_aesthetic_compatibility new_item.aesthetics base_item.aesthetics
  let pairing_res := pairingLoop new_item (base_item :: current_outfit) ("ok", [])
  { color_status := color_status
    formality_status := formality_res.1
    aesthetic_status := aesthetic_res.1
    pairing_status := pairing_res.1
    warnings := color_res.2 ++ formality_res.2 ++ aesthetic_res.2.toList ++ pairing_res.2 }

/-- The ordered pairs `(i, j)` with `i < j` of the double loop
`for i in range(n): for j in range(i+1, n)`. -/
def allPairs {α : Type} : List α → List (α × α)
  | [] => []
  | a :: rest => rest.map (fun b => (a, b)) ++ allPairs rest

/-- Python `max` of a list of rationals (the empty case never arises in the
source, which only calls it on `[base_item] + items`). -/
def maxQ : List ℚ → ℚ
  | [] => 0
  | a :: rest => rest.foldl max a

/-- Python `min` of a list of rationals. -/
def minQ : List ℚ → ℚ
  | [] => 0
  | a :: rest => rest.foldl min a

/-- `set.intersection(*all_aesthetics)` in `calculate_cohesion_score`:
the distinct tags of the first set that occur in every other set. -/
def commonTags : List (List String) → List String
  | [] => []
  | a :: rest => a.dedup.filter (fun t => rest.all (fun s => s.contains t))

/-- The color penalty bucket of `calculate_cohesion_score`:
`(incompatible_pairs / total_pairs) * 30`, guarded by `total_pairs > 0`. -/
def colorPenalty (all_items : List ClothingItemBase) : ℚ :=
  let pairs := allPairs all_items
  let incompatible_pairs :=
    (pairs.filter (fun p => !(check_color_compatibility p.1.color p.2.color).1)).length
  if pairs.length = 0 then 0
  else ((incompatible_pairs : ℚ) / (pairs.length : ℚ)) * 30

/-- The formality penalty bucket: `min(range * 10, 40)`. -/
def formalityPenalty (all_items : List ClothingItemBase) : ℚ :=
  let formality_levels := all_items.map (fun item => item.formality)
  let formality_range := maxQ formality_levels - minQ formality_levels
  min (formality_range * 10) 40

/-- The aesthetic sets considered by the cohesion scorer: aesthetics of every
item that has at least one tag. -/
def aesSets (all_items : List ClothingItemBase) : List (List String) :=
  (all_items.map (fun item => item.aesthetics)).filter (fun a => !a.isEmpty)

/-- The aesthetic penalty bucket: 30 / 10 / 0 points by the number of tags
shared by every tagged item; no tagged item means no penalty. -/
def aestheticPenalty (all_items : List ClothingItemBase) : ℚ :=
  let all_aesthetics := aesSets all_items
  if all_aesthetics.isEmpty then 0
  else
    let n := (commonTags all_aesthetics).length
    if n = 0 then 30
    else if n = 1 then 10
    else 0

/-- Final clamp of the cohesion score: `max(0, min(100, int(score)))`. -/
def clampScore (score : ℚ) : Int :=
  max 0 (min 100 (pyTrunc score))

/-- `calculate_cohesion_score`: start at 100 over `[base_item] + items`,
return 100 for fewer than two items, else subtract the three penalty buckets
and clamp to `[0, 100]`. -/
def calculate_cohesion_score (items : List ClothingItemBase)
    (base_item : ClothingItemBase) : Int :=
  let all_items := base_item :: items
  if all_items.length < 2 then 100
  else
    clampScore (100 - colorPenalty all_items - formalityPenalty all_items -
      aestheticPenalty all_items)

/-- `get_verdict`. -/
def get_verdict (score : Int) (is_complete : Bool) (warnings : List String) : String :=
  if !is_complete then "Incomplete outfit - missing required items"
  else if score ≥ 85 then "Excellent cohesive look!"
  else if score ≥ 70 then "Good outfit with minor style considerations"
  else if score ≥ 50 then "Decent outfit, but some elements may clash"
  else "Consider revising - multiple style conflicts"

/-- The `suggested_l2` reordering step of `generate_category_recommendations`. -/
def suggestedL2For (base_formality : ℚ) (category_l1 : String) : List String :=
  let suggested_l2 := (CATEGORY_TAXONOMY.lookup category_l1).getD []
  if base_formality ≥ 4 then
    let formal_preferences := ["Dress Pants", "Oxfords", "Loafers", "Heels"]
    suggested_l2.filter (fun item => formal_preferences.contains item) ++
      suggested_l2.filter (fun item => !formal_preferences.contains item)
  else if base_formality ≤ 2 then
    let casual_preferences := ["Jeans", "Sneakers", "Sandals", "T-Shirts", "Shorts"]
    suggested_l2.filter (fun item => casual_preferences.contains item) ++
      suggested_l2.filter (fun item => !casual_preferences.contains item)
  else suggested_l2

/-- The per-category body of `generate_category_recommendations`. -/
def recommendationFor (base_item : ClothingItemBase) (category_l1 : String) :
    Option CategoryRecommendation :=
  match generate_recommended_colors base_item.color true with
  | none => none
  | some colors =>
    let base_formality := base_item.formality
    let formality_min := max 1 (base_formality - 1)
    let formality_max := min 5 (base_formality + 1)
    let suggested_l2 := suggestedL2For base_formality category_l1
    let ex : String :=
      match suggested_l2, colors with
      | s :: _, c :: _ => s ++ " in " ++ c.name
      | s :: _, [] => s ++ " in matching colors"
      | [], c :: _ => category_l1 ++ " in " ++ c.name
      | [], [] => category_l1 ++ " in matching colors"
    some
      { category_l1 := category_l1
        colors := colors
        formality_range := ⟨formality_min, formality_max⟩
        aesthetics := base_item.aesthetics
        suggested_l2 := suggested_l2
        «example» := ex }

/-- `generate_category_recommendations`: pick the categories to recommend,
drop the ones already filled, and build one `CategoryRecommendation` each;
`none` models the `ValueError` reachable through the color generator. -/
def generate_category_recommendations (base_item : ClothingItemBase)
    (filled_categories : List String) : Option (List CategoryRecommendation) :=
  let base_l1 := base_item.category.l1
  let categories0 :=
    if base_l1 = "Full Body" then ["Shoes", "Accessories", "Outerwear"]
    else (CATEGORY_TAXONOMY.map (fun kv => kv.1)).filter (fun cat => cat ≠ base_l1)
  let categories_to_recommend :=
    categories0.filter (fun cat => !filled_categories.contains cat)
  categories_to_recommend.mapM (recommendationFor base_item)

/-! ### Closet matching / ranker (`services/matching.py`)

`color_distance` takes a real square root, so the score of an item is the
real number `score_item_match` below.  Every decision the pipeline makes on
scores (the `min_score` filter and the sort comparisons) is implemented by
the exact rational/integer procedure `repLE` on the representation
`scoreRep = (best squared distance, formality component)` and proved to
agree with the real-valued comparison. -/

/-- Value of one hexadecimal digit, as in Python `int(s, 16)` (the source
only ever receives valid hex digits). -/
def hexDigitVal (c : Char) : Nat :=
  if 48 ≤ c.toNat ∧ c.toNat ≤ 57 then c.toNat - 48
  else if 97 ≤ c.toNat ∧ c.toNat ≤ 102 then c.toNat - 87
  else if 65 ≤ c.toNat ∧ c.toNat ≤ 70 then c.toNat - 55
  else 0

/-- `hex_to_rgb`: strip leading `#`s and read three two-digit channels
(the source indexes positions 0-5 of a six-digit string). -/
def hex_to_rgb (hex_color : String) : Int × Int × Int :=
  match (hex_color.toList.dropWhile (fun c => c = '#')) with
  | a :: b :: c :: d :: e :: f :: _ =>
    ((16 * hexDigitVal a + hexDigitVal b : Nat), (16 * hexDigitVal c + hexDigitVal d : Nat),
      (16 * hexDigitVal e + hexDigitVal f : Nat))
  | _ => (0, 0, 0)

/-- The radicand of `color_distance`: `2·Δr² + 4·Δg² + 3·Δb²`, a natural
number. -/
def colorDistSq (hex1 hex2 : String) : Nat :=
  let rgb1 := hex_to_rgb hex1
  let rgb2 := hex_to_rgb hex2
  (2 * (rgb1.1 - rgb2.1).natAbs ^ 2 + 4 * (rgb1.2.1 - rgb2.2.1).natAbs ^ 2 +
    3 * (rgb1.2.2 - rgb2.2.2).natAbs ^ 2)

/-- `color_distance`: weighted Euclidean RGB distance (a real number). -/
noncomputable def color_distance (hex1 hex2 : String) : ℝ :=
  Real.sqrt (colorDistSq hex1 hex2)

/-- The formality component of `score_item_match` (pure rational
arithmetic): 50 inside the range, else 50 minus 15 per level outside,
floored at 0. -/
def formalityComponent (formality : ℚ) (formality_range : FormalityRange) : ℚ :=
  if formality_range.min ≤ formality ∧ formality ≤ formality_range.max then 50
  else
    let diff := if formality < formality_range.min then formality_range.min - formality
      else formality - formality_range.max
    max 0 (50 - diff * 15)

/-- `score_item_match`: color component (50 at distance 0 falling to 0 at
distance 150, using the best distance to any recommended color; an empty
recommendation list leaves the Python `float("inf")` start value, giving 0)
plus the formality component. -/
noncomputable def score_item_match (item : ClothingItemResponse)
    (recommended_colors : List RecommendedColor) (formality_range : FormalityRange) : ℝ :=
  let color_score : ℝ :=
    match recommended_colors with
    | [] => 0
    | r :: rs =>
      let best := rs.foldl (fun acc c => min acc (color_distance item.color.hex c.hex))
        (color_distance item.color.hex r.hex)
      max 0 (50 - best / 3)
  color_score + (formalityComponent item.formality formality_range : ℝ)

/-- Exact representation of a score: the best squared color distance
(`none` when no recommended color exists) and the formality component. -/
def scoreRep (item : ClothingItemResponse) (recommended_colors : List RecommendedColor)
    (formality_range : FormalityRange) : Option Nat × ℚ :=
  (match recommended_colors with
   | [] => none
   | r :: rs =>
     some (rs.foldl (fun acc c => min acc (colorDistSq item.color.hex c.hex))
       (colorDistSq item.color.hex r.hex)),
   formalityComponent item.formality formality_range)

/-- The real score denoted by a representation. -/
noncomputable def repVal : Option Nat × ℚ → ℝ
  | (none, f) => (f : ℝ)
  | (some d, f) => max 0 ((150 - Real.sqrt d) / 3) + (f : ℝ)

/-- Decides `(q : ℝ) ≤ Real.sqrt n`. -/
def ratLeSqrtB (q : ℚ) (n : Nat) : Bool :=
  decide (q ≤ 0) || decide (q ^ 2 ≤ (n : ℚ))

/-- Decides `Real.sqrt n ≤ (q : ℝ)`. -/
def sqrtLeRatB (n : Nat) (q : ℚ) : Bool :=
  decide (0 ≤ q) && decide ((n : ℚ) ≤ q ^ 2)

/-- Exact decision procedure for `repVal a ≤ repVal b`: a score component
`max 0 ((150 - sqrt d) / 3)` is zero exactly when `22500 ≤ d`. -/
def repLE : Option Nat × ℚ → Option Nat × ℚ → Bool
  | (none, f1), (none, f2) => decide (f1 ≤ f2)
  | (none, f1), (some d2, f2) =>
    if 22500 ≤ d2 then decide (f1 ≤ f2)
    else sqrtLeRatB d2 (150 - 3 * (f1 - f2))
  | (some d1, f1), (none, f2) =>
    if 22500 ≤ d1 then decide (f1 ≤ f2)
    else ratLeSqrtB (150 - 3 * (f2 - f1)) d1
  | (some d1, f1), (some d2, f2) =>
    if 22500 ≤ d1 then
      if 22500 ≤ d2 then decide (f1 ≤ f2)
      else sqrtLeRatB d2 (150 - 3 * (f1 - f2))
    else if 22500 ≤ d2 then ratLeSqrtB (150 - 3 * (f2 - f1)) d1
    else
      let u : ℚ := 3 * (f2 - f1)
      if 0 < u then ratLeSqrtB (((d2 : ℚ) - (d1 : ℚ) - u ^ 2) / (2 * u)) d1
      else if u = 0 then decide (d2 ≤ d1)
      else sqrtLeRatB d2 (((d1 : ℚ) - (d2 : ℚ) - u ^ 2) / (2 * (-u)))

/-- Exact test for score equality of two representations. -/
def repEqB (u k : Option Nat × ℚ) : Bool := repLE u k && repLE k u

/-- `filter_and_rank_items`, stage 1: keep the items of the requested L1
category (in order). -/
def categoryItems (items : List ClothingItemResponse) (category_l1 : String) :
    List ClothingItemResponse :=
  items.filter (fun item => item.category.l1 = category_l1)

/-- `filter_and_rank_items`, stage 2: score each category item and keep the
pairs whose score reaches `min_score` (a score-vs-rational comparison is the
`repLE` test against the constant representation `(none, min_score)`). -/
def scoredItems (items : List ClothingItemResponse) (category_l1 : String)
    (recommended_colors : List RecommendedColor) (formality_range : FormalityRange)
    (min_score : ℚ) : List (ClothingItemResponse × (Option Nat × ℚ)) :=
  ((categoryItems items category_l1).map
      (fun item => (item, scoreRep item recommended_colors formality_range))).filter
    (fun p => repLE (none, min_score) p.2)

/-- The descending-by-score order used by `scored_items.sort(key=...,
reverse=True)`: `p` may precede `q` when the score of `q` is at most the
score of `p` (the exact test `repLE`; `scoreGE_iff` gives the real-score
reading). -/
def scoreGE (p q : ClothingItemResponse × (Option Nat × ℚ)) : Prop :=
  repLE q.2 p.2 = true

instance : DecidableRel scoreGE := fun p q =>
  instDecidableEqBool (repLE q.2 p.2) true

/-- `filter_and_rank_items`, stage 3: Python's stable descending sort
(`list.sort` with `reverse=True`); any two stable sorts for the same total
preorder agree, so insertion sort is used. -/
def rankedPairs (items : List ClothingItemResponse) (category_l1 : String)
    (recommended_colors : List RecommendedColor) (formality_range : FormalityRange)
    (min_score : ℚ) : List (ClothingItemResponse × (Option Nat × ℚ)) :=
  List.insertionSort scoreGE (scoredItems items category_l1 recommended_colors
    formality_range min_score)

/-- `filter_and_rank_items`: filter by category, score, drop low scores,
stable-sort descending, truncate to `limit`, return the items. -/
def filter_and_rank_items (items : List ClothingItemResponse) (category_l1 : String)
    (recommended_colors : List RecommendedColor) (formality_range : FormalityRange)
    (limit : Nat := 5) (min_score : ℚ := 40) : List ClothingItemResponse :=
  ((rankedPairs items category_l1 recommended_colors formality_range min_score).take
    limit).map (fun p => p.1)

/-- A red and an analogous near-red, the first with a neutral name. -/
def C3neutralRed : Color := ⟨"#000000", ⟨0, 0, 0⟩, "black", true⟩

def C3nearRed : Color := ⟨"#FF1A00", ⟨10, 100, 50⟩, "red", false⟩

def C6oxfords : ClothingItemBase := ⟨C3neutralRed, ⟨"Shoes", "Oxfords"⟩, 4, []⟩

def C6joggers : ClothingItemBase := ⟨C3neutralRed, ⟨"Bottoms", "Joggers"⟩, 2, []⟩

/-- Specification-side: worst color status over base and outfit. -/
def specColorStatus (new_item base_item : ClothingItemBase)
    (outfit : List ClothingItemBase) : String :=
  if (base_item :: outfit).all
      (fun it => (check_color_compatibility new_item.color it.color).1) then "ok"
  else "warning"

/-- Specification-side: every color warning message, in check order. -/
def specColorWarnings (new_item base_item : ClothingItemBase)
    (outfit : List ClothingItemBase) : List String :=
  (if (check_color_compatibility new_item.color base_item.color).1 then []
   else ["Color may clash with base item (" ++
     (check_color_compatibility new_item.color base_item.color).2 ++ ")"]) ++
  outfit.filterMap (fun it =>
    if (check_color_compatibility new_item.color it.color).1 then none
    else some ("Color may clash with " ++ it.category.l2 ++ " (" ++
      (check_color_compatibility new_item.color it.color).2 ++ ")"))

/-- Specification-side: worst formality status (`ok < warning < mismatch`)
over a list of compared items. -/
def specFormalityStatus (new_item : ClothingItemBase)
    (others : List ClothingItemBase) : String :=
  if ∃ it ∈ others,
      (check_formality_compatibility new_item.formality it.formality).1 = "mismatch" then
    "mismatch"
  else if ∃ it ∈ others,
      (check_formality_compatibility new_item.formality it.formality).1 = "warning" then
    "warning"
  else "ok"

/-- Specification-side, claim version: every formality message produced by
the pairwise checks, in check order. -/
def specFormalityWarningsAll (new_item : ClothingItemBase)
    (others : List ClothingItemBase) : List String :=
  others.filterMap
    (fun it => (check_formality_compatibility new_item.formality it.formality).2)

/-- Specification-side, amended: the formality messages `validate_item`
keeps — every mismatch message, but a warning-tier message only when no
earlier check has already raised the status (tracked by `raised`). -/
def keptFormalityWarnings (nf : ℚ) : List ClothingItemBase → Bool → List String
  | [], _ => []
  | it :: rest, raised =>
    let r := check_formality_compatibility nf it.formality
    if r.1 = "mismatch" then r.2.toList ++ keptFormalityWarnings nf rest true
    else if r.1 = "warning" then
      (if raised then [] else r.2.toList) ++ keptFormalityWarnings nf rest true
    else keptFormalityWarnings nf rest raised

/-- Specification-side: pairing status. -/
def specPairingStatus (new_item : ClothingItemBase)
    (others : List ClothingItemBase) : String :=
  if others.any (fun it => (check_category_pairing new_item it).1 = "warning") then
    "warning"
  else "ok"

/-- Specification-side: every pairing warning message, in check order. -/
def specPairingWarnings (new_item : ClothingItemBase)
    (others : List ClothingItemBase) : List String :=
  others.filterMap (fun it =>
    let r := check_category_pairing new_item it
    if r.1 = "warning" then r.2 else none)

/-- The warnings list claim C2 asserts: every individual message of every
check, concatenated in check order color, formality, aesthetic, pairing. -/
def claimedWarnings (new_item base_item : ClothingItemBase)
    (outfit : List ClothingItemBase) : List String :=
  specColorWarnings new_item base_item outfit ++
    specFormalityWarningsAll new_item (base_item :: outfit) ++
    (check_aesthetic_compatibility new_item.aesthetics base_item.aesthetics).2.toList ++
    specPairingWarnings new_item (base_item :: outfit)

/-- Worst-status combination used to state the formality-loop invariant. -/
def statusCombine (s t : String) : String :=
  if s = "mismatch" ∨ t = "mismatch" then "mismatch"
  else if s = "warning" ∨ t = "warning" then "warning"
  else "ok"

/-- The amended `validate_item` result: statuses as the claim says, warnings
with the all-messages formality list replaced by the kept messages. -/
def specItemResponse (new_item base_item : ClothingItemBase)
    (outfit : List ClothingItemBase) : ValidateItemResponse :=
  { color_status := specColorStatus new_item base_item outfit
    formality_status := specFormalityStatus new_item (base_item :: outfit)
    aesthetic_status :=
      (check_aesthetic_compatibility new_item.aesthetics base_item.aesthetics).1
    pairing_status := specPairingStatus new_item (base_item :: outfit)
    warnings := specColorWarnings new_item base_item outfit ++
      keptFormalityWarnings new_item.formality (base_item :: outfit) false ++
      (check_aesthetic_compatibility new_item.aesthetics base_item.aesthetics).2.toList ++
      specPairingWarnings new_item (base_item :: outfit) }

def cexBlack : Color := ⟨"#000000", ⟨0, 0, 0⟩, "black", true⟩

def cexNew : ClothingItemBase := ⟨cexBlack, ⟨"Tops", "T-Shirts"⟩, 1, []⟩

def cexBase : ClothingItemBase := ⟨cexBlack, ⟨"Bottoms", "Jeans"⟩, 3, []⟩

def cexOther : ClothingItemBase := ⟨cexBlack, ⟨"Outerwear", "Jackets"⟩, 3, []⟩

def C1red : Color := ⟨"#FF0000", ⟨0, 100, 50⟩, "red", false⟩

def C1yellow : Color := ⟨"#FFFF00", ⟨60, 100, 50⟩, "yellow", false⟩

def C1base : ClothingItemBase := ⟨C1red, ⟨"Tops", "T-Shirts"⟩, 3, []⟩

def C1x : ClothingItemBase := ⟨C1yellow, ⟨"Bottoms", "Jeans"⟩, 3, []⟩

/-- Specification-side: move the members of `prefs` present in `l` to the
front, keeping relative order inside both groups. -/
def frontLoad (prefs l : List String) : List String :=
  l.filter (fun item => prefs.contains item) ++
    l.filter (fun item => !prefs.contains item)

def C7base : ClothingItemBase := ⟨cexBlack, ⟨"Full Body", "Dresses"⟩, 5, []⟩

def C7filled : List String := ["Accessories", "Outerwear"]

def C7recs : List CategoryRecommendation :=
  (generate_category_recommendations C7base C7filled).getD []

instance : Inhabited CategoryRecommendation :=
  ⟨⟨"", [], ⟨1, 1⟩, [], [], ""⟩⟩

def C5item : ClothingItemResponse := ⟨"closet-1", cexBlack, ⟨"Tops", "T-Shirts"⟩, 3, []⟩

/-! ### Theorems settling the claims, with their supporting lemmas -/

theorem leSqrt_of_sq_le {x : ℝ} {y : ℝ} (hy : 0 ≤ y) (h : x ^ 2 ≤ y ^ 2) :
    x ≤ y := by
  calc x ≤ |x| := le_abs_self x
  _ = Real.sqrt (x ^ 2) := (Real.sqrt_sq_eq_abs x).symm
  _ ≤ Real.sqrt (y ^ 2) := Real.sqrt_le_sqrt h
  _ = y := Real.sqrt_sq hy

theorem ratLeSqrtB_iff (q : ℚ) (n : Nat) :
    ratLeSqrtB q n = true ↔ (q : ℝ) ≤ Real.sqrt n := by
  unfold ratLeSqrtB
  rw [Bool.or_eq_true, decide_eq_true_eq, decide_eq_true_eq]
  constructor
  · rintro (hq | hq)
    · calc (q : ℝ) ≤ 0 := by exact_mod_cast hq
      _ ≤ Real.sqrt n := Real.sqrt_nonneg _
    · have hq2 : ((q : ℝ)) ^ 2 ≤ (n : ℝ) := by exact_mod_cast hq
      calc (q : ℝ) ≤ |(q : ℝ)| := le_abs_self _
      _ = Real.sqrt ((q : ℝ) ^ 2) := (Real.sqrt_sq_eq_abs _).symm
      _ ≤ Real.sqrt n := Real.sqrt_le_sqrt hq2
  · intro h
    rcases le_or_lt q 0 with hq | hq
    · exact Or.inl hq
    · right
      have hq0 : (0 : ℝ) < (q : ℝ) := by exact_mod_cast hq
      rw [Real.le_sqrt' hq0] at h
      exact_mod_cast h

theorem sqrtLeRatB_iff (n : Nat) (q : ℚ) :
    sqrtLeRatB n q = true ↔ Real.sqrt n ≤ (q : ℝ) := by
  unfold sqrtLeRatB
  rw [Bool.and_eq_true, decide_eq_true_eq, decide_eq_true_eq, Real.sqrt_le_iff]
  constructor
  · rintro ⟨h0, h2⟩
    exact ⟨by exact_mod_cast h0, by exact_mod_cast h2⟩
  · rintro ⟨h0, h2⟩
    exact ⟨by exact_mod_cast h0, by exact_mod_cast h2⟩

theorem repVal_colorZero {d : Nat} (h : 22500 ≤ d) {f : ℚ} :
    repVal (some d, f) = (f : ℝ) := by
  have h150 : (150 : ℝ) ≤ Real.sqrt d := by
    rw [Real.le_sqrt' (by norm_num)]
    calc ((150 : ℝ)) ^ 2 = ((22500 : Nat) : ℝ) := by norm_num
    _ ≤ d := by exact_mod_cast h
  show max 0 ((150 - Real.sqrt d) / 3) + (f : ℝ) = (f : ℝ)
  rw [max_eq_left (by linarith)]
  ring

theorem repVal_colorPos {d : Nat} (h : d < 22500) {f : ℚ} :
    repVal (some d, f) = (150 - Real.sqrt d) / 3 + (f : ℝ) ∧ Real.sqrt d < 150 := by
  have h150 : Real.sqrt d < 150 := by
    rw [Real.sqrt_lt' (by norm_num)]
    calc (d : ℝ) < ((22500 : Nat) : ℝ) := by exact_mod_cast h
    _ = 150 ^ 2 := by norm_num
  constructor
  · show max 0 ((150 - Real.sqrt d) / 3) + (f : ℝ) = _
    rw [max_eq_right (by linarith)]
  · exact h150

/-- Correctness of the exact score comparison. -/
theorem repLE_iff (a b : Option Nat × ℚ) :
    repLE a b = true ↔ repVal a ≤ repVal b := by
  obtain ⟨da, fa⟩ := a
  obtain ⟨db, fb⟩ := b
  have ratle : ∀ x y : ℚ, ((x : ℝ) ≤ (y : ℝ)) ↔ x ≤ y := fun x y => by
    exact_mod_cast Iff.rfl
  rcases da with _ | d1 <;> rcases db with _ | d2
  · simpa [repLE, repVal] using (ratle fa fb).symm
  · rcases le_or_lt 22500 d2 with h2 | h2
    · rw [repLE, if_pos h2, repVal_colorZero h2]
      simpa [repVal] using (ratle fa fb).symm
    · obtain ⟨hval, hlt⟩ := repVal_colorPos (f := fb) h2
      rw [repLE, if_neg (not_le.mpr h2), hval, sqrtLeRatB_iff]
      have hc : (((150 - 3 * (fa - fb) : ℚ)) : ℝ) = 150 - 3 * ((fa : ℝ) - (fb : ℝ)) := by
        push_cast
        ring
      rw [hc]
      show Real.sqrt d2 ≤ _ ↔ (fa : ℝ) ≤ _
      constructor
      · intro h
        linarith
      · intro h
        linarith
  · rcases le_or_lt 22500 d1 with h1 | h1
    · rw [repLE, if_pos h1, repVal_colorZero h1]
      simpa [repVal] using (ratle fa fb).symm
    · obtain ⟨hval, hlt⟩ := repVal_colorPos (f := fa) h1
      rw [repLE, if_neg (not_le.mpr h1), hval, ratLeSqrtB_iff]
      have hc : (((150 - 3 * (fb - fa) : ℚ)) : ℝ) = 150 - 3 * ((fb : ℝ) - (fa : ℝ)) := by
        push_cast
        ring
      rw [hc]
      show 150 - 3 * ((fb : ℝ) - (fa : ℝ)) ≤ Real.sqrt d1 ↔
        (150 - Real.sqrt d1) / 3 + (fa : ℝ) ≤ (fb : ℝ)
      constructor
      · intro h
        linarith
      · intro h
        linarith
  · rcases le_or_lt 22500 d1 with h1 | h1
    · rcases le_or_lt 22500 d2 with h2 | h2
      · rw [repLE, if_pos h1, if_pos h2, repVal_colorZero h1, repVal_colorZero h2]
        simpa using (ratle fa fb).symm
      · obtain ⟨hval, hlt⟩ := repVal_colorPos (f := fb) h2
        rw [repLE, if_pos h1, if_neg (not_le.mpr h2), repVal_colorZero h1, hval,
          sqrtLeRatB_iff]
        have hc : (((150 - 3 * (fa - fb) : ℚ)) : ℝ) = 150 - 3 * ((fa : ℝ) - (fb : ℝ)) := by
          push_cast
          ring
        rw [hc]
        constructor
        · intro h
          linarith
        · intro h
          linarith
    · obtain ⟨hval1, hlt1⟩ := repVal_colorPos (f := fa) h1
      rcases le_or_lt 22500 d2 with h2 | h2
      · rw [repLE, if_neg (not_le.mpr h1), if_pos h2, repVal_colorZero h2, hval1,
          ratLeSqrtB_iff]
        have hc : (((150 - 3 * (fb - fa) : ℚ)) : ℝ) = 150 - 3 * ((fb : ℝ) - (fa : ℝ)) := by
          push_cast
          ring
        rw [hc]
        constructor
        · intro h
          linarith
        · intro h
          linarith
      · obtain ⟨hval2, hlt2⟩ := repVal_colorPos (f := fb) h2
        rw [repLE, if_neg (not_le.mpr h1), if_neg (not_le.mpr h2), hval1, hval2]
        have ha : (0 : ℝ) ≤ Real.sqrt d1 := Real.sqrt_nonneg _
        have hb : (0 : ℝ) ≤ Real.sqrt d2 := Real.sqrt_nonneg _
        have ha2 : Real.sqrt d1 ^ 2 = (d1 : ℝ) := Real.sq_sqrt (by positivity)
        have hb2 : Real.sqrt d2 ^ 2 = (d2 : ℝ) := Real.sq_sqrt (by positivity)
        set A := Real.sqrt d1 with hA
        set B := Real.sqrt d2 with hB
        have key : ((150 - A) / 3 + (fa : ℝ) ≤ (150 - B) / 3 + (fb : ℝ)) ↔
            B ≤ A + 3 * ((fb : ℝ) - (fa : ℝ)) :=
          ⟨fun h => by linarith, fun h => by linarith⟩
        rw [key]
        rcases lt_trichotomy (0 : ℚ) (3 * (fb - fa)) with hpos | hzero | hneg
        · rw [if_pos hpos, ratLeSqrtB_iff, ← hA]
          have hu : (0 : ℝ) < 3 * ((fb : ℝ) - (fa : ℝ)) := by
            have hcast : ((0 : ℚ) : ℝ) < ((3 * (fb - fa) : ℚ) : ℝ) := by
              exact_mod_cast hpos
            push_cast at hcast
            linarith
          set u := 3 * ((fb : ℝ) - (fa : ℝ)) with hudef
          have hc : ((((d2 : ℚ) - (d1 : ℚ) - (3 * (fb - fa)) ^ 2) / (2 * (3 * (fb - fa))) : ℚ) : ℝ) =
              ((d2 : ℝ) - (d1 : ℝ) - u ^ 2) / (2 * u) := by
            rw [hudef]
            push_cast
            ring
          rw [hc]
          constructor
          · intro h
            rw [div_le_iff (by linarith)] at h
            have hd2 : (d2 : ℝ) ≤ (A + u) ^ 2 := by nlinarith
            have : B ≤ A + u := by
              apply leSqrt_of_sq_le (by linarith)
              rw [hb2]
              exact hd2
            exact this
          · intro h
            have hsq : B ^ 2 ≤ (A + u) ^ 2 := by
              apply pow_le_pow_left hb h
            rw [div_le_iff (by linarith)]
            rw [hb2] at hsq
            nlinarith
        · rw [if_neg (by rw [← hzero]; exact lt_irrefl 0), if_pos hzero.symm,
            decide_eq_true_eq]
          have hu0 : 3 * ((fb : ℝ) - (fa : ℝ)) = 0 := by
            have : ((3 * (fb - fa) : ℚ) : ℝ) = ((0 : ℚ) : ℝ) := by
              rw [← hzero]
            push_cast at this
            linarith
          rw [hu0, add_zero, hB, hA, Real.sqrt_le_sqrt_iff (by positivity)]
          exact ⟨fun h => by exact_mod_cast h, fun h => by exact_mod_cast h⟩
        · rw [if_neg (by exact not_lt.mpr hneg.le), if_neg (by exact hneg.ne),
            sqrtLeRatB_iff, ← hB]
          have hu : 3 * ((fb : ℝ) - (fa : ℝ)) < 0 := by
            have : ((3 * (fb - fa) : ℚ) : ℝ) < ((0 : ℚ) : ℝ) := by exact_mod_cast hneg
            push_cast at this
            linarith
          set u := 3 * ((fb : ℝ) - (fa : ℝ)) with hudef
          have hc : ((((d1 : ℚ) - (d2 : ℚ) - (3 * (fb - fa)) ^ 2) / (2 * -(3 * (fb - fa))) : ℚ) : ℝ) =
              ((d1 : ℝ) - (d2 : ℝ) - u ^ 2) / (2 * -u) := by
            rw [hudef]
            push_cast
            ring
          rw [hc]
          constructor
          · intro h
            rw [le_div_iff (by linarith)] at h
            have hsq : (B + -u) ^ 2 ≤ (d1 : ℝ) := by nlinarith
            have hba : B + -u ≤ A := by
              apply leSqrt_of_sq_le ha
              rw [ha2]
              exact hsq
            linarith
          · intro h
            have hba : B + -u ≤ A := by linarith
            have hsq : (B + -u) ^ 2 ≤ A ^ 2 := by
              apply pow_le_pow_left (by linarith) hba
            rw [le_div_iff (by linarith), ha2] at *
            nlinarith

theorem ltQ_iff (a b : ℚ) : ltQ a b = true ↔ a < b := by
  simp [ltQ, not_le]

theorem floorQ_eq (q : ℚ) : floorQ q = ⌊q⌋ := Rat.floor_def.symm

theorem absQ_eq_abs (q : ℚ) : absQ q = |q| := by
  unfold absQ
  split_ifs with h
  · exact (abs_of_neg ((ltQ_iff q 0).mp h)).symm
  · exact (abs_of_nonneg (not_lt.mp (fun hlt => h ((ltQ_iff q 0).mpr hlt)))).symm

/-! ### Claim C8: hue distance -/

/-- C8: `get_hue_distance h1 h2` equals `min |h1 - h2| (360 - |h1 - h2|)`;
for hues in `[0, 360)` it is symmetric, zero on equal hues, and wraps
(`get_hue_distance 350 10 = 20`). -/
theorem C8_hue_distance (h1 h2 : Int) (hl1 : 0 ≤ h1) (hu1 : h1 < 360)
    (hl2 : 0 ≤ h2) (hu2 : h2 < 360) :
    get_hue_distance h1 h2 = min |h1 - h2| (360 - |h1 - h2|) ∧
    get_hue_distance h1 h2 = get_hue_distance h2 h1 ∧
    get_hue_distance h1 h1 = 0 ∧
    get_hue_distance 350 10 = 20 := by
  refine ⟨rfl, ?_, ?_, by decide⟩
  · unfold get_hue_distance
    rw [abs_sub_comm]
  · unfold get_hue_distance
    simp

theorem C8_hue_distance_witness :
    get_hue_distance 350 10 = get_hue_distance 10 350 ∧ get_hue_distance 350 10 = 20 :=
  ⟨(C8_hue_distance 350 10 (by decide) (by decide) (by decide) (by decide)).2.1,
   (C8_hue_distance 350 10 (by decide) (by decide) (by decide) (by decide)).2.2.2⟩

/-! ### Claim C9: low-saturation colors get neutral names -/

/-- C9: whenever saturation is below 10 and lightness lies in `[15, 90]`,
the name returned by `get_color_name_from_hsl` is a neutral color name. -/
theorem C9_neutral_naming (hsl : HSL) (hs : hsl.s < 10) (hl1 : 15 ≤ hsl.l)
    (hl2 : hsl.l ≤ 90) :
    is_neutral_color (get_color_name_from_hsl hsl) = true := by
  unfold get_color_name_from_hsl
  rw [if_pos hs, if_neg (by omega), if_neg (by omega)]
  decide

theorem C9_neutral_naming_witness :
    is_neutral_color (get_color_name_from_hsl ⟨0, 5, 50⟩) = true :=
  C9_neutral_naming ⟨0, 5, 50⟩ (by decide) (by decide) (by decide)

/-! ### Claim C10: the verdict ignores the warnings argument -/

/-- C10: `get_verdict` does not depend on its `warnings` argument, and is
determined by completeness (which takes precedence) and the score bands
`≥ 85`, `≥ 70`, `≥ 50`, `< 50`. -/
theorem C10_verdict_ignores_warnings (score : Int) (is_complete : Bool)
    (w1 w2 : List String) :
    get_verdict score is_complete w1 = get_verdict score is_complete w2 ∧
    (is_complete = false →
      get_verdict score is_complete w1 = "Incomplete outfit - missing required items") ∧
    (is_complete = true → 85 ≤ score →
      get_verdict score is_complete w1 = "Excellent cohesive look!") ∧
    (is_complete = true → 70 ≤ score → score < 85 →
      get_verdict score is_complete w1 = "Good outfit with minor style considerations") ∧
    (is_complete = true → 50 ≤ score → score < 70 →
      get_verdict score is_complete w1 = "Decent outfit, but some elements may clash") ∧
    (is_complete = true → score < 50 →
      get_verdict score is_complete w1 = "Consider revising - multiple style conflicts") := by
  refine ⟨rfl, ?_, ?_, ?_, ?_, ?_⟩
  · intro h
    subst h
    rfl
  · intro h h85
    subst h
    unfold get_verdict
    rw [if_neg (by decide), if_pos h85]
  · intro h h70 h85
    subst h
    unfold get_verdict
    rw [if_neg (by decide), if_neg (not_le.mpr h85), if_pos h70]
  · intro h h50 h70
    subst h
    unfold get_verdict
    rw [if_neg (by decide), if_neg (by omega), if_neg (not_le.mpr h70), if_pos h50]
  · intro h h50
    subst h
    unfold get_verdict
    rw [if_neg (by decide), if_neg (by omega), if_neg (by omega), if_neg (not_le.mpr h50)]

theorem C10_verdict_witness :
    get_verdict 90 true ["a"] = get_verdict 90 true [] ∧
    get_verdict 90 true ["a"] = "Excellent cohesive look!" :=
  ⟨(C10_verdict_ignores_warnings 90 true ["a"] []).1,
   (C10_verdict_ignores_warnings 90 true ["a"] []).2.2.1 rfl (by decide)⟩

/-! ### Claim C3: color-compatibility priority order -/

/-- C3: `check_color_compatibility` evaluates its predicates in strict
priority order (neutral, then analogous, complementary, triadic, none); in
particular a pair that is both neutral-eligible and analogous reports
`"neutral"`. -/
theorem C3_color_priority (c1 c2 : Color) :
    (is_neutral_color c1.name = true →
      check_color_compatibility c1 c2 = (true, "neutral")) ∧
    (is_neutral_color c2.name = true →
      check_color_compatibility c1 c2 = (true, "neutral")) ∧
    (is_neutral_color c1.name = false → is_neutral_color c2.name = false →
      are_colors_analogous c1.hsl c2.hsl = true →
      check_color_compatibility c1 c2 = (true, "analogous")) ∧
    (is_neutral_color c1.name = false → is_neutral_color c2.name = false →
      are_colors_analogous c1.hsl c2.hsl = false →
      are_colors_complementary c1.hsl c2.hsl = true →
      check_color_compatibility c1 c2 = (true, "complementary")) ∧
    (is_neutral_color c1.name = false → is_neutral_color c2.name = false →
      are_colors_analogous c1.hsl c2.hsl = false →
      are_colors_complementary c1.hsl c2.hsl = false →
      are_colors_triadic c1.hsl c2.hsl = true →
      check_color_compatibility c1 c2 = (true, "triadic")) ∧
    (is_neutral_color c1.name = false → is_neutral_color c2.name = false →
      are_colors_analogous c1.hsl c2.hsl = false →
      are_colors_complementary c1.hsl c2.hsl = false →
      are_colors_triadic c1.hsl c2.hsl = false →
      check_color_compatibility c1 c2 = (false, "none")) ∧
    (is_neutral_color c1.name = true → are_colors_analogous c1.hsl c2.hsl = true →
      check_color_compatibility c1 c2 = (true, "neutral")) := by
  refine ⟨?_, ?_, ?_, ?_, ?_, ?_, ?_⟩ <;> intros <;>
    simp [check_color_compatibility, *]

theorem C3_color_priority_witness :
    check_color_compatibility C3neutralRed C3nearRed = (true, "neutral") :=
  (C3_color_priority C3neutralRed C3nearRed).2.2.2.2.2.2 (by decide) (by decide)

/-! ### Claim C4: formality thresholds with inclusive boundaries -/

/-- C4: for formalities in `[1, 5]`, `check_formality_compatibility` reports
`"ok"` iff the distance is at most 1, `"warning"` iff it lies in `(1, 2]`,
and `"mismatch"` otherwise; a distance of exactly 2 warns and a distance of
exactly 3 mismatches. -/
theorem C4_formality_thresholds (f1 f2 : ℚ) (h1a : 1 ≤ f1) (h1b : f1 ≤ 5)
    (h2a : 1 ≤ f2) (h2b : f2 ≤ 5) :
    ((check_formality_compatibility f1 f2).1 = "ok" ↔ |f1 - f2| ≤ 1) ∧
    ((check_formality_compatibility f1 f2).1 = "warning" ↔
      (1 < |f1 - f2| ∧ |f1 - f2| ≤ 2)) ∧
    ((check_formality_compatibility f1 f2).1 = "mismatch" ↔ 2 < |f1 - f2|) ∧
    (|f1 - f2| = 2 → (check_formality_compatibility f1 f2).1 = "warning") ∧
    (|f1 - f2| = 3 → (check_formality_compatibility f1 f2).1 = "mismatch") := by
  have how : ("ok" : String) ≠ "warning" := by decide
  have hom : ("ok" : String) ≠ "mismatch" := by decide
  have hwm : ("warning" : String) ≠ "mismatch" := by decide
  unfold check_formality_compatibility
  dsimp only
  rw [absQ_eq_abs]
  split_ifs with hd1 hd2
  · exact ⟨⟨fun _ => hd1, fun _ => rfl⟩,
      ⟨fun h => absurd h how, fun h => absurd hd1 (not_le.mpr h.1)⟩,
      ⟨fun h => absurd h hom, fun h => absurd hd1 (not_le.mpr (lt_trans one_lt_two h))⟩,
      fun h => absurd hd1 (by rw [h]; norm_num),
      fun h => absurd hd1 (by rw [h]; norm_num)⟩
  · exact ⟨⟨fun h => absurd h.symm how, fun h => absurd h hd1⟩,
      ⟨fun _ => ⟨not_le.mp hd1, hd2⟩, fun _ => rfl⟩,
      ⟨fun h => absurd h hwm, fun h => absurd hd2 (not_le.mpr h)⟩,
      fun _ => rfl,
      fun h => absurd hd2 (by rw [h]; norm_num)⟩
  · exact ⟨⟨fun h => absurd h.symm hom, fun h => absurd h hd1⟩,
      ⟨fun h => absurd h.symm hwm, fun h => absurd h.2 hd2⟩,
      ⟨fun _ => not_le.mp hd2, fun _ => rfl⟩,
      fun h => absurd (le_of_eq h) hd2,
      fun _ => rfl⟩

theorem C4_formality_witness :
    (check_formality_compatibility 1 3).1 = "warning" ∧
    (check_formality_compatibility 1 4).1 = "mismatch" :=
  ⟨(C4_formality_thresholds 1 3 (by norm_num) (by norm_num) (by norm_num)
      (by norm_num)).2.2.2.1 (by norm_num),
   (C4_formality_thresholds 1 4 (by norm_num) (by norm_num) (by norm_num)
      (by norm_num)).2.2.2.2 (by norm_num)⟩

/-! ### Claim C6: category pairing rules -/

/-- C6: `check_category_pairing` constrains only Shoes paired with Bottoms
or Full Body.  A Full-Body item is `"ok"` with a shoe iff the shoe's entry
in `SHOE_BOTTOM_PAIRINGS` contains `"Dresses"` or `"Suits"`; a Bottoms item
is `"ok"` iff its L2 is in that entry; a shoe L2 absent from the table gets
an empty allowed list and always warns against a bottom; any other pair is
`("ok", none)`. -/
theorem C6_category_pairing (item1 item2 : ClothingItemBase) :
    (item1.category.l1 = "Shoes" → item2.category.l1 = "Full Body" →
      (check_category_pairing item1 item2 = ("ok", none) ↔
        (((SHOE_BOTTOM_PAIRINGS.lookup item1.category.l2).getD []).contains "Dresses" = true ∨
          ((SHOE_BOTTOM_PAIRINGS.lookup item1.category.l2).getD []).contains "Suits" = true))) ∧
    (item1.category.l1 = "Full Body" → item2.category.l1 = "Shoes" →
      (check_category_pairing item1 item2 = ("ok", none) ↔
        (((SHOE_BOTTOM_PAIRINGS.lookup item2.category.l2).getD []).contains "Dresses" = true ∨
          ((SHOE_BOTTOM_PAIRINGS.lookup item2.category.l2).getD []).contains "Suits" = true))) ∧
    (item1.category.l1 = "Shoes" → item2.category.l1 = "Bottoms" →
      (check_category_pairing item1 item2 = ("ok", none) ↔
        ((SHOE_BOTTOM_PAIRINGS.lookup item1.category.l2).getD []).contains
          item2.category.l2 = true)) ∧
    (item1.category.l1 = "Bottoms" → item2.category.l1 = "Shoes" →
      (check_category_pairing item1 item2 = ("ok", none) ↔
        ((SHOE_BOTTOM_PAIRINGS.lookup item2.category.l2).getD []).contains
          item1.category.l2 = true)) ∧
    (item1.category.l1 = "Shoes" → item2.category.l1 = "Bottoms" →
      SHOE_BOTTOM_PAIRINGS.lookup item1.category.l2 = none →
      check_category_pairing item1 item2 =
        ("warning", some (item1.category.l2 ++ " typically don\x27t pair with " ++
          item2.category.l2))) ∧
    (¬(item1.category.l1 = "Shoes" ∧
        (item2.category.l1 = "Bottoms" ∨ item2.category.l1 = "Full Body")) →
      ¬(item2.category.l1 = "Shoes" ∧
        (item1.category.l1 = "Bottoms" ∨ item1.category.l1 = "Full Body")) →
      check_category_pairing item1 item2 = ("ok", none)) := by
  refine ⟨?_, ?_, ?_, ?_, ?_, ?_⟩
  · intro h1 h2
    simp [check_category_pairing, h1, h2]
    tauto
  · intro h1 h2
    simp [check_category_pairing, h1, h2]
    tauto
  · intro h1 h2
    simp [check_category_pairing, h1, h2]
  · intro h1 h2
    simp [check_category_pairing, h1, h2]
  · intro h1 h2 hmiss
    simp [check_category_pairing, h1, h2, hmiss]
  · intro hn1 hn2
    by_cases ha : item1.category.l1 = "Shoes"
    · have hb : ¬(item2.category.l1 = "Bottoms" ∨ item2.category.l1 = "Full Body") :=
        fun hc => hn1 ⟨ha, hc⟩
      simp [check_category_pairing, ha, hb]
    · by_cases hb : item2.category.l1 = "Shoes"
      · have hc : ¬(item1.category.l1 = "Bottoms" ∨ item1.category.l1 = "Full Body") :=
          fun hc => hn2 ⟨hb, hc⟩
        simp [check_category_pairing, ha, hb, hc]
      · simp [check_category_pairing, ha, hb]

theorem C6_category_pairing_witness :
    (check_category_pairing C6oxfords C6joggers = ("ok", none) ↔
      ((SHOE_BOTTOM_PAIRINGS.lookup "Oxfords").getD []).contains "Joggers" = true) :=
  (C6_category_pairing C6oxfords C6joggers).2.2.1 rfl rfl

/-! ### Claim C2: `validate_item` aggregation -/

theorem colorLoop_spec (n : ClothingItemBase) (l : List ClothingItemBase) :
    ∀ (ok0 : Bool) (ws0 : List String),
    colorLoop n l (ok0, ws0) =
      (ok0 && l.all (fun it => (check_color_compatibility n.color it.color).1),
       ws0 ++ l.filterMap (fun it =>
         if (check_color_compatibility n.color it.color).1 then none
         else some ("Color may clash with " ++ it.category.l2 ++ " (" ++
           (check_color_compatibility n.color it.color).2 ++ ")"))) := by
  induction l with
  | nil =>
    intro ok0 ws0
    simp [colorLoop]
  | cons it rest ih =>
    intro ok0 ws0
    dsimp only [colorLoop]
    by_cases hc : (check_color_compatibility n.color it.color).1 = true
    · rw [if_pos hc, ih]
      simp [hc]
    · rw [if_neg hc, ih]
      simp only [Bool.not_eq_true] at hc
      simp [hc]

theorem check_formality_status_cases (a b : ℚ) :
    (check_formality_compatibility a b).1 = "ok" ∨
    (check_formality_compatibility a b).1 = "warning" ∨
    (check_formality_compatibility a b).1 = "mismatch" := by
  unfold check_formality_compatibility
  dsimp only
  split_ifs <;> simp

theorem specFormalityStatus_cases (n : ClothingItemBase)
    (l : List ClothingItemBase) :
    specFormalityStatus n l = "ok" ∨ specFormalityStatus n l = "warning" ∨
      specFormalityStatus n l = "mismatch" := by
  unfold specFormalityStatus
  split_ifs <;> simp

theorem statusCombine_ok_left (t : String) :
    t = "ok" ∨ t = "warning" ∨ t = "mismatch" → statusCombine "ok" t = t := by
  rintro (rfl | rfl | rfl) <;> simp [statusCombine]

theorem formalityLoop_spec (n : ClothingItemBase) (l : List ClothingItemBase) :
    ∀ (s0 : String) (ws0 : List String) (raised : Bool),
    (s0 = "ok" ∧ raised = false ∨ s0 = "warning" ∧ raised = true ∨
      s0 = "mismatch" ∧ raised = true) →
    formalityLoop n l (s0, ws0) =
      (statusCombine s0 (specFormalityStatus n l),
       ws0 ++ keptFormalityWarnings n.formality l raised) := by
  induction l with
  | nil =>
    rintro s0 ws0 raised (⟨rfl, rfl⟩ | ⟨rfl, rfl⟩ | ⟨rfl, rfl⟩) <;>
      simp [formalityLoop, keptFormalityWarnings, specFormalityStatus, statusCombine]
  | cons it rest ih =>
    intro s0 ws0 raised hst
    dsimp only [formalityLoop]
    rcases check_formality_status_cases n.formality it.formality with hok | hw | hm
    · rw [if_neg (by rw [hok]; decide), if_neg (fun hc => by
        have := hc.1
        rw [hok] at this
        exact absurd this (by decide))]
      rw [ih s0 ws0 raised hst]
      have hspec : specFormalityStatus n (it :: rest) = specFormalityStatus n rest := by
        unfold specFormalityStatus
        simp [List.exists_mem_cons_iff, hok]
      have hkept : keptFormalityWarnings n.formality (it :: rest) raised =
          keptFormalityWarnings n.formality rest raised := by
        rw [keptFormalityWarnings, if_neg (by rw [hok]; decide),
          if_neg (by rw [hok]; decide)]
      rw [hspec, hkept]
    · have hspec : specFormalityStatus n (it :: rest) =
          statusCombine "warning" (specFormalityStatus n rest) := by
        unfold specFormalityStatus statusCombine
        by_cases hmr : ∃ x ∈ rest,
            (check_formality_compatibility n.formality x.formality).1 = "mismatch" <;>
          by_cases hwr : ∃ x ∈ rest,
            (check_formality_compatibility n.formality x.formality).1 = "warning" <;>
          simp [List.exists_mem_cons_iff, hw, hmr, hwr]
      rcases hst with ⟨rfl, rfl⟩ | ⟨rfl, rfl⟩ | ⟨rfl, rfl⟩
      · rw [if_neg (by rw [hw]; decide), if_pos ⟨hw, rfl⟩]
        rw [ih "warning" (ws0 ++ (check_formality_compatibility n.formality
          it.formality).2.toList) true (Or.inr (Or.inl ⟨rfl, rfl⟩))]
        rw [hspec]
        have hkept : keptFormalityWarnings n.formality (it :: rest) false =
            (check_formality_compatibility n.formality it.formality).2.toList ++
              keptFormalityWarnings n.formality rest true := by
          rw [keptFormalityWarnings, if_neg (by rw [hw]; decide), if_pos hw]
          simp
        rw [hkept]
        have hcomb : statusCombine "ok" (statusCombine "warning"
            (specFormalityStatus n rest)) =
            statusCombine "warning" (specFormalityStatus n rest) := by
          apply statusCombine_ok_left
          unfold statusCombine
          split_ifs <;> simp
        rw [hcomb, List.append_assoc]
      · rw [if_neg (by rw [hw]; decide), if_neg (fun hc => by
          exact absurd hc.2 (by decide))]
        rw [ih "warning" ws0 true (Or.inr (Or.inl ⟨rfl, rfl⟩)), hspec]
        have hkept : keptFormalityWarnings n.formality (it :: rest) true =
            keptFormalityWarnings n.formality rest true := by
          rw [keptFormalityWarnings, if_neg (by rw [hw]; decide), if_pos hw]
          simp
        rw [hkept]
        have hcomb : statusCombine "warning" (statusCombine "warning"
            (specFormalityStatus n rest)) =
            statusCombine "warning" (specFormalityStatus n rest) := by
          unfold statusCombine
          split_ifs with h1 h2 <;> simp_all
        rw [hcomb]
      · rw [if_neg (by rw [hw]; decide), if_neg (fun hc => by
          exact absurd hc.2 (by decide))]
        rw [ih "mismatch" ws0 true (Or.inr (Or.inr ⟨rfl, rfl⟩)), hspec]
        have hkept : keptFormalityWarnings n.formality (it :: rest) true =
            keptFormalityWarnings n.formality rest true := by
          rw [keptFormalityWarnings, if_neg (by rw [hw]; decide), if_pos hw]
          simp
        rw [hkept]
        have hcomb : statusCombine "mismatch" (statusCombine "warning"
            (specFormalityStatus n rest)) =
            statusCombine "mismatch" (specFormalityStatus n rest) := by
          unfold statusCombine
          split_ifs <;> simp_all
        rw [hcomb]
    · rw [if_pos hm]
      rw [ih "mismatch" (ws0 ++ (check_formality_compatibility n.formality
        it.formality).2.toList) true (Or.inr (Or.inr ⟨rfl, rfl⟩))]
      have hspec : specFormalityStatus n (it :: rest) = "mismatch" := by
        unfold specFormalityStatus
        simp [List.exists_mem_cons_iff, hm]
      have hkept : keptFormalityWarnings n.formality (it :: rest) raised =
          (check_formality_compatibility n.formality it.formality).2.toList ++
            keptFormalityWarnings n.formality rest true := by
        rw [keptFormalityWarnings, if_pos hm]
      have hcomb1 : statusCombine s0 "mismatch" = "mismatch" := by
        unfold statusCombine
        simp
      have hcomb2 : statusCombine "mismatch" (specFormalityStatus n rest) =
          "mismatch" := by
        unfold statusCombine
        simp
      rw [hspec, hkept, hcomb1, hcomb2, List.append_assoc]

theorem pairingLoop_spec (n : ClothingItemBase) (l : List ClothingItemBase) :
    ∀ (s0 : String) (ws0 : List String),
    pairingLoop n l (s0, ws0) =
      ((if l.any (fun it => (check_category_pairing n it).1 = "warning") then
          "warning"
        else s0),
       ws0 ++ specPairingWarnings n l) := by
  induction l with
  | nil =>
    intro s0 ws0
    simp [pairingLoop, specPairingWarnings]
  | cons it rest ih =>
    intro s0 ws0
    dsimp only [pairingLoop]
    by_cases hw : (check_category_pairing n it).1 = "warning"
    · rw [if_pos hw, ih]
      have hspec : specPairingWarnings n (it :: rest) =
          (check_category_pairing n it).2.toList ++ specPairingWarnings n rest := by
        cases hr : (check_category_pairing n it).2 <;>
          simp [specPairingWarnings, List.filterMap_cons, hw, hr]
      rw [hspec]
      simp [hw, List.append_assoc]
    · rw [if_neg hw, ih]
      have hspec : specPairingWarnings n (it :: rest) = specPairingWarnings n rest := by
        simp [specPairingWarnings, List.filterMap_cons, hw]
      rw [hspec]
      simp [hw]

/-- C2, amended: `validate_item` reports the worst status per dimension,
checks aesthetics only against the base item, and returns the color,
formality, aesthetic and pairing messages concatenated in check order —
where the formality list keeps every mismatch message but only a first
warning-tier message (later warning-tier messages are dropped once the
status has been raised). -/
theorem C2_validate_item_amended (new_item base_item : ClothingItemBase)
    (current_outfit : List ClothingItemBase) :
    validate_item new_item base_item current_outfit =
      specItemResponse new_item base_item current_outfit := by
  unfold validate_item specItemResponse
  dsimp only
  rw [formalityLoop_spec new_item (base_item :: current_outfit) "ok" [] false
    (Or.inl ⟨rfl, rfl⟩)]
  rw [pairingLoop_spec new_item (base_item :: current_outfit) "ok" []]
  rw [statusCombine_ok_left _ (specFormalityStatus_cases new_item _)]
  by_cases hb : (check_color_compatibility new_item.color base_item.color).1 = true
  · rw [if_pos hb, colorLoop_spec]
    simp [specColorStatus, specColorWarnings, List.all_cons, hb, specPairingStatus]
  · rw [if_neg hb, colorLoop_spec]
    have hb' : (check_color_compatibility new_item.color base_item.color).1 = false := by
      simpa using hb
    simp [specColorStatus, specColorWarnings, List.all_cons, hb', specPairingStatus]

/-- C2, counterexample to the claim as stated: with a candidate of
formality 1 against a base and one outfit item both of formality 3, the two
formality checks each produce a warning message, but `validate_item` keeps
only the first — its warnings list is not the concatenation of every
individual warning message. -/
theorem C2_counterexample :
    (validate_item cexNew cexBase [cexOther]).warnings ≠
      claimedWarnings cexNew cexBase [cexOther] := by
  decide

/-! ### Claim C1: cohesion score -/

theorem pyTrunc_mono {a b : ℚ} (h : a ≤ b) : pyTrunc a ≤ pyTrunc b := by
  unfold pyTrunc
  by_cases ha : ltQ a 0 = true <;> by_cases hb : ltQ b 0 = true
  · rw [if_pos ha, if_pos hb, floorQ_eq, floorQ_eq]
    exact neg_le_neg (Int.floor_mono (neg_le_neg h))
  · rw [if_pos ha, if_neg hb, floorQ_eq, floorQ_eq]
    have ha' : a < 0 := (ltQ_iff a 0).mp ha
    have hb' : (0 : ℚ) ≤ b := not_lt.mp (fun hlt => hb ((ltQ_iff b 0).mpr hlt))
    have h1 : (0 : Int) ≤ ⌊-a⌋ := Int.floor_nonneg.mpr (by linarith)
    have h2 : (0 : Int) ≤ ⌊b⌋ := Int.floor_nonneg.mpr hb'
    omega
  · exfalso
    have ha' : (0 : ℚ) ≤ a := not_lt.mp (fun hlt => ha ((ltQ_iff a 0).mpr hlt))
    have hb' : b < 0 := (ltQ_iff b 0).mp hb
    linarith
  · rw [if_neg ha, if_neg hb, floorQ_eq, floorQ_eq]
    exact Int.floor_mono h

theorem clampScore_mono {a b : ℚ} (h : a ≤ b) : clampScore a ≤ clampScore b := by
  unfold clampScore
  exact max_le_max le_rfl (min_le_min le_rfl (pyTrunc_mono h))

theorem clampScore_le_100 (q : ℚ) : clampScore q ≤ 100 := by
  unfold clampScore
  exact max_le (by norm_num) (min_le_left _ _)

theorem cohesion_le_100 (items : List ClothingItemBase) (base_item : ClothingItemBase) :
    calculate_cohesion_score items base_item ≤ 100 := by
  unfold calculate_cohesion_score
  dsimp only
  split_ifs
  · exact le_refl _
  · exact clampScore_le_100 _

theorem colorPenalty_nonneg (l : List ClothingItemBase) : 0 ≤ colorPenalty l := by
  unfold colorPenalty
  dsimp only
  split_ifs
  · exact le_refl _
  · positivity

theorem colorPenalty_eq_zero {l : List ClothingItemBase}
    (h : (allPairs l).all
      (fun p => (check_color_compatibility p.1.color p.2.color).1) = true) :
    colorPenalty l = 0 := by
  unfold colorPenalty
  dsimp only
  have hfil : (allPairs l).filter
      (fun p => !(check_color_compatibility p.1.color p.2.color).1) = [] := by
    rw [List.filter_eq_nil_iff]
    intro p hp
    have := (List.all_eq_true.mp h) p hp
    simp [this]
  rw [hfil]
  split_ifs <;> simp

theorem maxQ_cons_append (a : ℚ) (l : List ℚ) (x : ℚ) :
    maxQ (a :: (l ++ [x])) = max (maxQ (a :: l)) x := by
  show (l ++ [x]).foldl max a = max (l.foldl max a) x
  rw [List.foldl_append]
  rfl

theorem minQ_cons_append (a : ℚ) (l : List ℚ) (x : ℚ) :
    minQ (a :: (l ++ [x])) = min (minQ (a :: l)) x := by
  show (l ++ [x]).foldl min a = min (l.foldl min a) x
  rw [List.foldl_append]
  rfl

theorem formalityPenalty_mono (base_item : ClothingItemBase)
    (items : List ClothingItemBase) (x : ClothingItemBase) :
    formalityPenalty (base_item :: items) ≤
      formalityPenalty (base_item :: (items ++ [x])) := by
  unfold formalityPenalty
  dsimp only
  simp only [List.map_cons, List.map_append, List.map_cons, List.map_nil]
  rw [show ([x.formality] : List ℚ) = [x.formality] from rfl]
  rw [maxQ_cons_append, minQ_cons_append]
  apply min_le_min _ le_rfl
  have h1 : maxQ (base_item.formality :: items.map (fun item => item.formality)) ≤
      max (maxQ (base_item.formality :: items.map (fun item => item.formality)))
        x.formality := le_max_left _ _
  have h2 : min (minQ (base_item.formality :: items.map (fun item => item.formality)))
      x.formality ≤ minQ (base_item.formality :: items.map (fun item => item.formality)) :=
    min_le_left _ _
  linarith

theorem aesPen_antitone {m n : Nat} (h : m ≤ n) :
    (if n = 0 then (30 : ℚ) else if n = 1 then 10 else 0) ≤
      (if m = 0 then (30 : ℚ) else if m = 1 then 10 else 0) := by
  split_ifs
  all_goals try norm_num
  all_goals omega

theorem aestheticPenalty_nonneg (l : List ClothingItemBase) :
    0 ≤ aestheticPenalty l := by
  unfold aestheticPenalty
  dsimp only
  split_ifs <;> norm_num

theorem aesSets_append_singleton (l : List ClothingItemBase) (x : ClothingItemBase) :
    aesSets (l ++ [x]) =
      aesSets l ++ (if x.aesthetics.isEmpty then [] else [x.aesthetics]) := by
  unfold aesSets
  rw [List.map_append, List.filter_append]
  congr 1
  by_cases hx : x.aesthetics.isEmpty <;> simp [hx]

theorem commonTags_append_le (a xa : List String) (rest : List (List String)) :
    (commonTags (a :: (rest ++ [xa]))).length ≤ (commonTags (a :: rest)).length := by
  unfold commonTags
  apply List.Sublist.length_le
  apply List.monotone_filter_right
  intro t ht
  rw [List.all_append] at ht
  exact (Bool.and_eq_true_iff.mp ht).1

theorem aestheticPenalty_mono (base_item : ClothingItemBase)
    (items : List ClothingItemBase) (x : ClothingItemBase) :
    aestheticPenalty (base_item :: items) ≤
      aestheticPenalty (base_item :: (items ++ [x])) := by
  have hsets : aesSets (base_item :: (items ++ [x])) =
      aesSets (base_item :: items) ++
        (if x.aesthetics.isEmpty then [] else [x.aesthetics]) := by
    rw [show base_item :: (items ++ [x]) = (base_item :: items) ++ [x] from rfl]
    exact aesSets_append_singleton _ _
  by_cases hx : x.aesthetics.isEmpty
  · rw [show aestheticPenalty (base_item :: (items ++ [x])) =
        aestheticPenalty (base_item :: items) by
      unfold aestheticPenalty
      rw [hsets, if_pos hx, List.append_nil]]
  · rw [if_neg hx] at hsets
    rcases hsa : aesSets (base_item :: items) with _ | ⟨a, rest⟩
    · have h0 : aestheticPenalty (base_item :: items) = 0 := by
        unfold aestheticPenalty
        rw [hsa]
        rfl
      rw [h0]
      exact aestheticPenalty_nonneg _
    · have hlen := commonTags_append_le a x.aesthetics rest
      have hold : aestheticPenalty (base_item :: items) =
          (if (commonTags (a :: rest)).length = 0 then (30 : ℚ)
           else if (commonTags (a :: rest)).length = 1 then 10 else 0) := by
        unfold aestheticPenalty
        rw [hsa]
        rw [if_neg (show ¬(((a :: rest : List (List String))).isEmpty = true) by simp)]
      have hnew : aestheticPenalty (base_item :: (items ++ [x])) =
          (if (commonTags (a :: (rest ++ [x.aesthetics]))).length = 0 then (30 : ℚ)
           else if (commonTags (a :: (rest ++ [x.aesthetics]))).length = 1 then 10
           else 0) := by
        unfold aestheticPenalty
        rw [hsets, hsa,
          show ((a :: rest) ++ [x.aesthetics] : List (List String)) =
            a :: (rest ++ [x.aesthetics]) from rfl]
        rw [if_neg (show
          ¬(((a :: (rest ++ [x.aesthetics]) : List (List String))).isEmpty = true) by
            simp)]
      rw [hold, hnew]
      exact aesPen_antitone hlen

/-- C1: a single-item outfit always scores exactly 100 (unconditionally);
and if every pair of the full outfit `[base_item] + items` is
color-compatible, appending one item that clashes with at least one member
cannot increase the score. -/
theorem C1_cohesion_monotone (items : List ClothingItemBase)
    (base_item x : ClothingItemBase) :
    ((base_item :: items).length < 2 → calculate_cohesion_score items base_item = 100) ∧
    ((allPairs (base_item :: items)).all
        (fun p => (check_color_compatibility p.1.color p.2.color).1) = true →
      (∃ y ∈ base_item :: items, (check_color_compatibility x.color y.color).1 = false) →
      calculate_cohesion_score (items ++ [x]) base_item ≤
        calculate_cohesion_score items base_item) := by
  constructor
  · intro hlen
    unfold calculate_cohesion_score
    dsimp only
    rw [if_pos hlen]
  · intro hall hx
    rcases items with _ | ⟨i, is⟩
    · have h100 : calculate_cohesion_score [] base_item = 100 := by
        unfold calculate_cohesion_score
        dsimp only
        rw [if_pos (by simp)]
      rw [h100]
      exact cohesion_le_100 _ _
    · have hlen1 : ¬ ((base_item :: (i :: is)).length < 2) := by
        simp
      have hlen2 : ¬ ((base_item :: ((i :: is) ++ [x])).length < 2) := by
        simp
      unfold calculate_cohesion_score
      dsimp only
      rw [if_neg hlen2, if_neg hlen1]
      apply clampScore_mono
      have hcp0 : colorPenalty (base_item :: (i :: is)) = 0 := colorPenalty_eq_zero hall
      have hcpn : 0 ≤ colorPenalty (base_item :: ((i :: is) ++ [x])) :=
        colorPenalty_nonneg _
      have hfp := formalityPenalty_mono base_item (i :: is) x
      have hap := aestheticPenalty_mono base_item (i :: is) x
      rw [hcp0]
      linarith

theorem C1_cohesion_witness :
    calculate_cohesion_score [] C1base = 100 ∧
    calculate_cohesion_score [] cexBase = 100 ∧
    calculate_cohesion_score [C1x] C1base ≤ calculate_cohesion_score [] C1base :=
  ⟨(C1_cohesion_monotone [] C1base C1x).1 (by decide),
   (C1_cohesion_monotone [] cexBase C1x).1 (by decide),
   (C1_cohesion_monotone [] C1base C1x).2 (by decide) ⟨C1base, by simp, by decide⟩⟩

/-! ### Claim C7: recommended `suggested_l2` is a front-loaded permutation -/

theorem mapM_option_mem {α β : Type} (f : α → Option β) :
    ∀ (l : List α) (ys : List β), l.mapM f = some ys →
      ∀ y ∈ ys, ∃ x ∈ l, f x = some y := by
  intro l
  induction l with
  | nil =>
    intro ys h y hy
    simp only [List.mapM_nil] at h
    cases h
    cases hy
  | cons a as ih =>
    intro ys h y hy
    rw [List.mapM_cons] at h
    cases hfa : f a with
    | none => rw [hfa] at h; cases h
    | some b =>
      rw [hfa] at h
      cases hmas : as.mapM f with
      | none => rw [hmas] at h; cases h
      | some bs =>
        rw [hmas] at h
        have hys : ys = b :: bs := by
          cases h
          rfl
        subst hys
        rcases List.mem_cons.mp hy with rfl | hybs
        · exact ⟨a, List.mem_cons_self a as, hfa⟩
        · obtain ⟨x, hx, hfx⟩ := ih bs hmas y hybs
          exact ⟨x, List.mem_cons_of_mem a hx, hfx⟩

theorem suggestedL2For_spec (f : ℚ) (cat : String) :
    (suggestedL2For f cat).Perm ((CATEGORY_TAXONOMY.lookup cat).getD []) ∧
    (4 ≤ f → suggestedL2For f cat =
      frontLoad ["Dress Pants", "Oxfords", "Loafers", "Heels"]
        ((CATEGORY_TAXONOMY.lookup cat).getD [])) ∧
    (f ≤ 2 → suggestedL2For f cat =
      frontLoad ["Jeans", "Sneakers", "Sandals", "T-Shirts", "Shorts"]
        ((CATEGORY_TAXONOMY.lookup cat).getD [])) ∧
    (2 < f → f < 4 → suggestedL2For f cat =
      (CATEGORY_TAXONOMY.lookup cat).getD []) := by
  unfold suggestedL2For
  dsimp only
  split_ifs with h4 h2
  · exact ⟨List.filter_append_perm _ _, fun _ => rfl,
      fun h => absurd h4 (by linarith), fun _ h => absurd h4 (not_le.mpr h)⟩
  · exact ⟨List.filter_append_perm _ _, fun h => absurd h h4,
      fun _ => rfl, fun h _ => absurd h2 (not_le.mpr h)⟩
  · exact ⟨List.Perm.refl _, fun h => absurd h h4, fun h => absurd h h2,
      fun _ _ => rfl⟩

/-- C7: every `CategoryRecommendation` produced by
`generate_category_recommendations` carries a `suggested_l2` that is a
permutation of the category's static L2 list; with base formality at least 4
the formal subset is moved to the front, with base formality at most 2 the
casual subset is, and for mid-range formality the order is untouched. -/
theorem C7_suggested_l2 (base_item : ClothingItemBase) (filled_categories : List String)
    (recs : List CategoryRecommendation)
    (h : generate_category_recommendations base_item filled_categories = some recs) :
    ∀ rec ∈ recs,
      rec.suggested_l2.Perm ((CATEGORY_TAXONOMY.lookup rec.category_l1).getD []) ∧
      (4 ≤ base_item.formality → rec.suggested_l2 =
        frontLoad ["Dress Pants", "Oxfords", "Loafers", "Heels"]
          ((CATEGORY_TAXONOMY.lookup rec.category_l1).getD [])) ∧
      (base_item.formality ≤ 2 → rec.suggested_l2 =
        frontLoad ["Jeans", "Sneakers", "Sandals", "T-Shirts", "Shorts"]
          ((CATEGORY_TAXONOMY.lookup rec.category_l1).getD [])) ∧
      (2 < base_item.formality → base_item.formality < 4 → rec.suggested_l2 =
        (CATEGORY_TAXONOMY.lookup rec.category_l1).getD []) := by
  intro rec hrec
  unfold generate_category_recommendations at h
  obtain ⟨cat, _hcat, hfc⟩ := mapM_option_mem _ _ _ h rec hrec
  unfold recommendationFor at hfc
  cases hcol : generate_recommended_colors base_item.color true with
  | none =>
    rw [hcol] at hfc
    cases hfc
  | some colors =>
    rw [hcol] at hfc
    have heq := Option.some.inj hfc
    have hsug : rec.suggested_l2 = suggestedL2For base_item.formality cat := by
      rw [← heq]
    have hcat1 : rec.category_l1 = cat := by
      rw [← heq]
    rw [hsug, hcat1]
    exact suggestedL2For_spec base_item.formality cat

theorem C7_suggested_l2_witness :
    (C7recs.headI).suggested_l2.Perm
      ((CATEGORY_TAXONOMY.lookup (C7recs.headI).category_l1).getD []) ∧
    (C7recs.headI).suggested_l2 =
      frontLoad ["Dress Pants", "Oxfords", "Loafers", "Heels"]
        ((CATEGORY_TAXONOMY.lookup (C7recs.headI).category_l1).getD []) :=
  ⟨(C7_suggested_l2 C7base C7filled C7recs (by decide) C7recs.headI (by decide)).1,
   (C7_suggested_l2 C7base C7filled C7recs (by decide) C7recs.headI (by decide)).2.1
     (by norm_num [C7base])⟩

/-! ### Claim C5: `filter_and_rank_items` -/

theorem sqrt_foldl_min (hex : String) (a : Nat) (l : List RecommendedColor) :
    Real.sqrt ((l.foldl (fun acc c => min acc (colorDistSq hex c.hex)) a : Nat) : ℝ) =
      l.foldl (fun acc c => min acc (color_distance hex c.hex)) (Real.sqrt a) := by
  induction l generalizing a with
  | nil => rfl
  | cons c cs ih =>
    rw [List.foldl_cons, List.foldl_cons, ih]
    congr 1
    rw [Nat.cast_min]
    exact Monotone.map_min (fun x y h => Real.sqrt_le_sqrt h)

theorem score_item_match_eq (item : ClothingItemResponse)
    (recommended_colors : List RecommendedColor) (formality_range : FormalityRange) :
    score_item_match item recommended_colors formality_range =
      repVal (scoreRep item recommended_colors formality_range) := by
  unfold score_item_match scoreRep
  cases recommended_colors with
  | nil =>
    show (0 : ℝ) + _ = repVal (none, _)
    rw [zero_add]
    rfl
  | cons r rs =>
    dsimp only
    have hb : rs.foldl (fun acc c => min acc (color_distance item.color.hex c.hex))
        (color_distance item.color.hex r.hex) =
        Real.sqrt ((rs.foldl (fun acc c => min acc (colorDistSq item.color.hex c.hex))
          (colorDistSq item.color.hex r.hex) : Nat) : ℝ) := by
      rw [sqrt_foldl_min]
      rfl
    rw [hb]
    show max 0 (50 - _ / 3) + _ = max 0 ((150 - _) / 3) + _
    congr 2
    ring

theorem scoreGE_iff (p q : ClothingItemResponse × (Option Nat × ℚ)) :
    scoreGE p q ↔ repVal q.2 ≤ repVal p.2 := repLE_iff q.2 p.2

theorem repEqB_class (k : Option Nat × ℚ)
    (x y : ClothingItemResponse × (Option Nat × ℚ))
    (hx : repEqB x.2 k = true) (hr : ¬ scoreGE x y) : repEqB y.2 k = false := by
  have hx1 := (repLE_iff x.2 k).mp (Bool.and_eq_true_iff.mp hx).1
  have hx2 := (repLE_iff k x.2).mp (Bool.and_eq_true_iff.mp hx).2
  have hy : repVal x.2 < repVal y.2 := not_le.mp (fun hc => hr ((scoreGE_iff x y).mpr hc))
  have h0 : repLE y.2 k = false := by
    rw [Bool.eq_false_iff]
    intro hc
    have := (repLE_iff y.2 k).mp hc
    linarith
  unfold repEqB
  rw [h0]
  rfl

theorem filter_orderedInsert_pos {α : Type} (r : α → α → Prop) [DecidableRel r]
    (p : α → Bool) (a : α) :
    ∀ l : List α, (∀ b ∈ l, ¬ r a b → p b = false) → p a = true →
      (List.orderedInsert r a l).filter p = a :: l.filter p := by
  intro l
  induction l with
  | nil =>
    intro _ hpa
    simp [List.orderedInsert, hpa]
  | cons b bs ih =>
    intro hcl hpa
    rw [List.orderedInsert]
    by_cases hr : r a b
    · rw [if_pos hr]
      simp [List.filter_cons, hpa]
    · rw [if_neg hr]
      have hpb : p b = false := hcl b (List.mem_cons_self _ _) hr
      have hrec := ih (fun c hc hrc => hcl c (List.mem_cons_of_mem _ hc) hrc) hpa
      simp [List.filter_cons, hpb, hrec]

theorem filter_orderedInsert_neg {α : Type} (r : α → α → Prop) [DecidableRel r]
    (p : α → Bool) (a : α) (hpa : p a = false) :
    ∀ l : List α, (List.orderedInsert r a l).filter p = l.filter p := by
  intro l
  induction l with
  | nil => simp [List.orderedInsert, hpa]
  | cons b bs ih =>
    rw [List.orderedInsert]
    by_cases hr : r a b
    · rw [if_pos hr]
      simp [List.filter_cons, hpa]
    · rw [if_neg hr]
      simp [List.filter_cons, ih]

theorem filter_insertionSort {α : Type} (r : α → α → Prop) [DecidableRel r]
    (p : α → Bool) (hclass : ∀ x y, p x = true → ¬ r x y → p y = false) :
    ∀ l : List α, (List.insertionSort r l).filter p = l.filter p := by
  intro l
  induction l with
  | nil => rfl
  | cons a as ih =>
    rw [List.insertionSort]
    by_cases hpa : p a = true
    · rw [filter_orderedInsert_pos r p a _ (fun b _ hrb => hclass a b hpa hrb) hpa, ih]
      simp [List.filter_cons, hpa]
    · have hpa' : p a = false := by
        simpa using hpa
      rw [filter_orderedInsert_neg r p a hpa', ih]
      simp [List.filter_cons, hpa']

theorem scoredItems_mem {items : List ClothingItemResponse} {category_l1 : String}
    {recommended_colors : List RecommendedColor} {formality_range : FormalityRange}
    {min_score : ℚ} {p : ClothingItemResponse × (Option Nat × ℚ)}
    (hp : p ∈ scoredItems items category_l1 recommended_colors formality_range min_score) :
    p.1.category.l1 = category_l1 ∧
    p.2 = scoreRep p.1 recommended_colors formality_range ∧
    repLE (none, min_score) p.2 = true := by
  unfold scoredItems categoryItems at hp
  obtain ⟨hmem, hms⟩ := List.mem_filter.mp hp
  obtain ⟨item, hitem, heq⟩ := List.mem_map.mp hmem
  obtain ⟨_, hcat⟩ := List.mem_filter.mp hitem
  subst heq
  exact ⟨by simpa using hcat, rfl, hms⟩

/-- C5: `filter_and_rank_items` is deterministic, returns at most `limit`
items, every returned item has the requested category and a score at least
`min_score`, the result is in non-increasing score order, the stable sort
preserves the original relative order inside every score class, and every
ranked pair carries exactly its item's score. -/
theorem C5_filter_and_rank (items : List ClothingItemResponse) (category_l1 : String)
    (recommended_colors : List RecommendedColor) (formality_range : FormalityRange)
    (limit : Nat) (min_score : ℚ) :
    filter_and_rank_items items category_l1 recommended_colors formality_range
        limit min_score =
      filter_and_rank_items items category_l1 recommended_colors formality_range
        limit min_score ∧
    (filter_and_rank_items items category_l1 recommended_colors formality_range
      limit min_score).length ≤ limit ∧
    (∀ x ∈ filter_and_rank_items items category_l1 recommended_colors formality_range
        limit min_score,
      x.category.l1 = category_l1 ∧
      ((min_score : ℝ) ≤ score_item_match x recommended_colors formality_range)) ∧
    (filter_and_rank_items items category_l1 recommended_colors formality_range
      limit min_score).Pairwise
      (fun a b => score_item_match b recommended_colors formality_range ≤
        score_item_match a recommended_colors formality_range) ∧
    (∀ k, (rankedPairs items category_l1 recommended_colors formality_range
        min_score).filter (fun p => repEqB p.2 k) =
      (scoredItems items category_l1 recommended_colors formality_range
        min_score).filter (fun p => repEqB p.2 k)) ∧
    (∀ p ∈ rankedPairs items category_l1 recommended_colors formality_range min_score,
      repVal p.2 = score_item_match p.1 recommended_colors formality_range) := by
  have hperm := List.perm_insertionSort scoreGE
    (scoredItems items category_l1 recommended_colors formality_range min_score)
  have hranked_mem : ∀ p ∈ rankedPairs items category_l1 recommended_colors
      formality_range min_score,
      p ∈ scoredItems items category_l1 recommended_colors formality_range min_score :=
    fun p hp => hperm.mem_iff.mp hp
  refine ⟨rfl, ?_, ?_, ?_, ?_, ?_⟩
  · unfold filter_and_rank_items
    rw [List.length_map, List.length_take]
    exact min_le_left _ _
  · intro x hx
    unfold filter_and_rank_items at hx
    obtain ⟨p, hp, rfl⟩ := List.mem_map.mp hx
    have hps := hranked_mem p (List.mem_of_mem_take hp)
    obtain ⟨hcat, hrep, hms⟩ := scoredItems_mem hps
    refine ⟨hcat, ?_⟩
    have := (repLE_iff (none, min_score) p.2).mp hms
    rw [score_item_match_eq, ← hrep]
    exact this
  · haveI : IsTotal (ClothingItemResponse × (Option Nat × ℚ)) scoreGE :=
      ⟨fun p q => by
        rcases le_total (repVal q.2) (repVal p.2) with h | h
        · exact Or.inl ((scoreGE_iff p q).mpr h)
        · exact Or.inr ((scoreGE_iff q p).mpr h)⟩
    haveI : IsTrans (ClothingItemResponse × (Option Nat × ℚ)) scoreGE :=
      ⟨fun a b c hab hbc => (scoreGE_iff a c).mpr
        (le_trans ((scoreGE_iff b c).mp hbc) ((scoreGE_iff a b).mp hab))⟩
    have hs : (rankedPairs items category_l1 recommended_colors formality_range
        min_score).Pairwise scoreGE :=
      List.sorted_insertionSort scoreGE _
    have ht : ((rankedPairs items category_l1 recommended_colors formality_range
        min_score).take limit).Pairwise scoreGE :=
      List.Pairwise.sublist (List.take_sublist _ _) hs
    unfold filter_and_rank_items
    rw [List.pairwise_map]
    refine ht.imp_of_mem ?_
    intro a b ha hb hab
    have hia := scoredItems_mem (hranked_mem a (List.mem_of_mem_take ha))
    have hib := scoredItems_mem (hranked_mem b (List.mem_of_mem_take hb))
    rw [score_item_match_eq b.1 recommended_colors formality_range, ← hib.2.1,
      score_item_match_eq a.1 recommended_colors formality_range, ← hia.2.1]
    exact (scoreGE_iff a b).mp hab
  · intro k
    exact filter_insertionSort scoreGE (fun p => repEqB p.2 k)
      (fun x y hx hr => repEqB_class k x y hx hr) _
  · intro p hp
    obtain ⟨_, hrep, _⟩ := scoredItems_mem (hranked_mem p hp)
    rw [score_item_match_eq, ← hrep]

theorem C5_filter_and_rank_witness :
    C5item.category.l1 = "Tops" ∧
    ((40 : ℚ) : ℝ) ≤ score_item_match C5item [] ⟨3, 3⟩ :=
  (C5_filter_and_rank [C5item] "Tops" [] ⟨3, 3⟩ 5 40).2.2.1 C5item (by decide)

end SIY
